import Mathlib

/-!
Verification of the milter protocol core (`src/libserver/milter.c`).

The development shallowly embeds the C source: byte buffers are `List Nat`
(each element a byte value 0..255 as produced by `guchar` reads), pointers
become offsets into those lists, and the stateful session/parser pair is
threaded explicitly.  External collaborators that the core merely calls
(the SMTP address parser, the IP-address parser) are abstract parameters
(`MilterExt`); design-level constants living in headers that are not part
of the studied source (`milter.h` / `milter_internal.h`) are either fields
of `MilterConsts` (so all theorems hold for every value) or, where the
specification fixes them exhaustively (the command letters of section 6.1),
concrete definitions marked `Modelled from the spec`.
-/

namespace MilterCore

/-- ASCII lowercasing of one byte, as `g_ascii_tolower` does. -/
def asciiLower (c : Nat) : Nat :=
  if 65 ≤ c ∧ c ≤ 90 then c + 32 else c

/-- Case-insensitive byte-string equality, as `rspamd_strcase_equal` /
`rspamd_ftok_icase_equal` compare keys. -/
def strcaseEq (a b : List Nat) : Bool :=
  a.map asciiLower == b.map asciiLower

/-- Index of the first NUL byte of a list (`memchr (l, 0, l.length)`). -/
def memchrOff (l : List Nat) : Option Nat :=
  match l with
  | [] => none
  | b :: t => if b == 0 then some 0 else (memchrOff t).map (· + 1)

/-- The window `buf[off, off+len)` of a buffer. -/
def sliceL (buf : List Nat) (off len : Nat) : List Nat :=
  (buf.drop off).take len

/-- The `memchr (buf + off, 0, len)` returning an absolute offset.  Where the C
window would extend past the bytes actually written into the buffer the
the window of the model is truncated at the end of the buffer (the C bytes there are
uninitialised memory). -/
def memchrZ (buf : List Nat) (off len : Nat) : Option Nat :=
  (memchrOff (sliceL buf off len)).map (off + ·)

/-- Big-endian bytes of a 32-bit value, as `htonl` plus `memcpy` lay it out. -/
def be32enc (n : Nat) : List Nat :=
  [(n >>> 24) % 256, (n >>> 16) % 256, (n >>> 8) % 256, n % 256]

/-- Big-endian 32-bit read at an offset (`memcpy` + `ntohl`), written with
the same shift-or accumulation used by the length states of the parser. -/
def read32 (buf : List Nat) (off : Nat) : Nat :=
  ((((0 ||| (buf.getD off 0 <<< 24)) ||| (buf.getD (off + 1) 0 <<< 16)) |||
    (buf.getD (off + 2) 0 <<< 8)) ||| buf.getD (off + 3) 0)

/-- Big-endian 16-bit read at an offset (`memcpy` + `ntohs`). -/
def read16 (buf : List Nat) (off : Nat) : Nat :=
  (buf.getD off 0 <<< 8) ||| buf.getD (off + 1) 0

/-! ### Command letters and family bytes

Modelled from the spec: the numeric values of the `RSPAMD_MILTER_CMD_*`
and reply letters live in `milter_internal.h`, which is not among the
studied sources; section 6.1 of the specification lists them exhaustively,
and these definitions transcribe that table (ASCII codes). -/

def CMD_ABORT : Nat := 65
def CMD_BODY : Nat := 66
def CMD_CONNECT : Nat := 67
def CMD_MACRO : Nat := 68
def CMD_BODYEOB : Nat := 69
def CMD_HELO : Nat := 72
def CMD_QUIT_NC : Nat := 75
def CMD_HEADER : Nat := 76
def CMD_MAIL : Nat := 77
def CMD_EOH : Nat := 78
def CMD_OPTNEG : Nat := 79
def CMD_QUIT : Nat := 81
def CMD_RCPT : Nat := 82
def CMD_DATA : Nat := 84
def CMD_UNKNOWN : Nat := 85

def REPLY_ACCEPT : Nat := 97
def REPLY_CONTINUE : Nat := 99
def REPLY_DISCARD : Nat := 100
def REPLY_PROGRESS : Nat := 112
def REPLY_REJECT : Nat := 114
def REPLY_TEMPFAIL : Nat := 116
def REPLY_ADDHEADER : Nat := 104
def REPLY_INSHEADER : Nat := 105
def REPLY_CHGHEADER : Nat := 109
def REPLY_REPLYCODE : Nat := 121
def REPLY_ADDRCPT : Nat := 43
def REPLY_DELRCPT : Nat := 45
def REPLY_CHGFROM : Nat := 101
def REPLY_OPTNEG : Nat := 79

/-- Modelled from the spec: CONNECT family bytes of section 6.1. -/
def CONN_UNKNOWN : Nat := 85
def CONN_UNIX : Nat := 83
def CONN_INET : Nat := 52
def CONN_INET6 : Nat := 54

/-- Address families of the host `socket.h`; the values are irrelevant to
every theorem, only their distinctness is used. -/
def AF_UNIX : Nat := 1
def AF_INET : Nat := 2
def AF_INET6 : Nat := 10

/-- The `rspamd_milter_is_valid_cmd` of the source. -/
def rspamd_milter_is_valid_cmd (c : Nat) : Bool :=
  c == CMD_ABORT || c == CMD_BODY || c == CMD_CONNECT || c == CMD_MACRO ||
  c == CMD_BODYEOB || c == CMD_HELO || c == CMD_QUIT_NC || c == CMD_HEADER ||
  c == CMD_MAIL || c == CMD_EOH || c == CMD_OPTNEG || c == CMD_QUIT ||
  c == CMD_RCPT || c == CMD_DATA || c == CMD_UNKNOWN

/-! ### Data model -/

/-- Result of the external SMTP address parser
(`rspamd_email_address_from_smtp`, outside the studied source). -/
structure EmailAddr where
  raw : List Nat
deriving DecidableEq, Repr

/-- An `rspamd_inet_address` value (external type): family, textual address
data it was built from, and port. -/
structure InetAddr where
  af : Nat
  text : List Nat
  port : Nat
deriving DecidableEq, Repr

/-- External collaborators of the core, abstracted as functions: the SMTP
address parser and the IP-address parser (`rspamd_parse_inet_address_ip`,
returning whether the text parsed). -/
structure MilterExt where
  emailFromSmtp : List Nat → Option EmailAddr
  parseIpOk : Nat → List Nat → Bool

/-- Design-level constants from `milter.h` / `milter_internal.h` (not among
the studied sources).  All theorems are stated for arbitrary values of
these fields. `chunkMax` is `RSPAMD_MILTER_MESSAGE_CHUNK`; `protoVer` is
`RSPAMD_MILTER_PROTO_VER`; the three `List Nat` fields are the
`RSPAMD_MILTER_{SPAM_HEADER,REJECT_MESSAGE,TEMPFAIL_MESSAGE}` strings. -/
structure MilterConsts where
  protoVer : Nat
  actionsMask : Nat
  noreplyMask : Nat
  chunkMax : Nat
  spamHeader : List Nat
  rejectMessage : List Nat
  tempfailMessage : List Nat

/-- Connection-level state (`enum rspamd_milter_state` in the private
structure). -/
inductive ConnState where
  | readMore
  | writeReply
  | writeAndDie
  | wannaDie
deriving DecidableEq, Repr

/-- Parser FSM states `st_len_1 .. st_read_data`. -/
inductive PFsm where
  | len1
  | len2
  | len3
  | len4
  | readCmd
  | readData
deriving DecidableEq, Repr

/-- The protocol / memory errors the embedded code can raise (the `GError`
kinds created in `milter.c`).  `ubMacroValue` marks the place where the C
code would compare `end > NULL` and then read with a huge length
(undefined behaviour); no theorem relies on that branch. -/
inductive MErr where
  | connectNoName
  | connectNoIp
  | connectBadIPv4
  | connectBadIPv6
  | connectBadProto
  | macroNoName
  | macroBadValue
  | ubMacroValue
  | headerNoName
  | headerBadValue
  | optnegBadLen
  | optnegBadVersion
  | cmdTooShort
  | cmdTooBig
  | cmdInvalid
deriving DecidableEq, Repr

/-- The milter session together with its private part: envelope fields of
`struct rspamd_milter_session`, plus (from `rspamd_milter_private`) the
header-count map, connection state, outbound frame queue and flags.
`errCbInvoked` / `finCbCount` / `lastError` are instrumentation recording
the host callbacks the code invokes. -/
structure Session where
  hostname : Option (List Nat)
  helo : Option (List Nat)
  fromA : Option EmailAddr
  rcpts : Option (List EmailAddr)
  message : Option (List Nat)
  addr : Option InetAddr
  macros : Option (List (List Nat × List Nat))
  headers : List (List Nat × Int)
  state : ConnState
  outChain : List (List Nat)
  discardOnReject : Bool
  noAction : Bool
  errCbInvoked : Bool
  finCbCount : Nat
  lastError : Option MErr
deriving DecidableEq, Repr

/-- The resumable parser of `struct rspamd_milter_private` (`parser.*`):
FSM state, remaining payload length, current command byte, the absolute
offset where the payload starts, the saved read cursor, and the buffer
contents.  The capacity of the buffer is not modelled: growing it
(`rspamd_fstring_grow`) only changes capacity, never the bytes or the
cursor, so the grow branch coincides with the plain need-more branch. -/
structure MParser where
  fsm : PFsm
  datalen : Nat
  curCmd : Nat
  cmdStart : Nat
  pos : Nat
  buf : List Nat
deriving DecidableEq, Repr

/-- The `rspamd_milter_on_protocol_error`: enter `WANNA_DIE` and invoke the
host error callback. -/
def onProtocolError (s : Session) (e : MErr) : Session :=
  { s with state := .wannaDie, errCbInvoked := true, lastError := some e }

/-- Reset flag sets (`RSPAMD_MILTER_RESET_*`). -/
structure ResetHow where
  common : Bool
  io : Bool
  raddr : Bool
  resetMacros : Bool

def RESET_ABORT : ResetHow := ⟨true, false, false, false⟩
def RESET_QUIT_NC : ResetHow := ⟨true, false, true, true⟩
def RESET_ALL : ResetHow := ⟨true, true, true, true⟩

/-- The `rspamd_milter_session_reset`.  (The parser-buffer truncation of the
`RESET_IO` branch lives with the I/O state and is irrelevant here: the only
caller with `io := true` is the destructor.) -/
def rspamd_milter_session_reset (s : Session) (how : ResetHow) : Session :=
  let s := if how.io then { s with outChain := [] } else s
  let s := if how.common then
    { s with message := s.message.map (fun _ => []),
             rcpts := none,
             fromA := none,
             helo := s.helo.map (fun _ => []),
             hostname := s.hostname.map (fun _ => []),
             headers := [] } else s
  let s := if how.raddr then { s with addr := none } else s
  if how.resetMacros then { s with macros := none } else s

/-! ### Reply builder (`rspamd_milter_send_action`, `SET_COMMAND`) -/

/-- The actions `rspamd_milter_send_action` accepts (its variadic argument
lists, per `enum rspamd_milter_reply` case). -/
inductive OutAction where
  | accept
  | continueA
  | discard
  | progress
  | reject
  | tempfail
  | addHeader (name value : List Nat)
  | chgHeader (idx : Nat) (name value : List Nat)
  | insHeader (idx : Nat) (name value : List Nat)
  | replyCode (value : List Nat)
  | addRcpt (value : List Nat)
  | delRcpt (value : List Nat)
  | chgFrom (value : List Nat)
  | optneg (ver actions protocol : Nat)
deriving DecidableEq, Repr

/-- The command letter `send_action` writes for each action. -/
def actionCmd (a : OutAction) : Nat :=
  match a with
  | .accept => REPLY_ACCEPT
  | .continueA => REPLY_CONTINUE
  | .discard => REPLY_DISCARD
  | .progress => REPLY_PROGRESS
  | .reject => REPLY_REJECT
  | .tempfail => REPLY_TEMPFAIL
  | .addHeader _ _ => REPLY_ADDHEADER
  | .chgHeader _ _ _ => REPLY_CHGHEADER
  | .insHeader _ _ _ => REPLY_INSHEADER
  | .replyCode _ => REPLY_REPLYCODE
  | .addRcpt _ => REPLY_ADDRCPT
  | .delRcpt _ => REPLY_DELRCPT
  | .chgFrom _ => REPLY_CHGFROM
  | .optneg _ _ _ => REPLY_OPTNEG

/-- The payload bytes each `send_action` case copies after the command
letter.  `memcpy (pos, x->str, x->len + 1)` copies the GString bytes plus
the NUL terminator, hence the `++ [0]`; `htonl` truncates to 32 bits. -/
def actionPayload (a : OutAction) : List Nat :=
  match a with
  | .accept | .continueA | .discard | .progress | .reject | .tempfail => []
  | .addHeader n v => n ++ [0] ++ v ++ [0]
  | .chgHeader idx n v => be32enc (idx % 2 ^ 32) ++ n ++ [0] ++ v ++ [0]
  | .insHeader idx n v => be32enc (idx % 2 ^ 32) ++ n ++ [0] ++ v ++ [0]
  | .replyCode v | .addRcpt v | .delRcpt v | .chgFrom v => v ++ [0]
  | .optneg ver acts proto =>
      be32enc (ver % 2 ^ 32) ++ be32enc (acts % 2 ^ 32) ++ be32enc (proto % 2 ^ 32)

/-- The `SET_COMMAND`: one contiguous reply buffer, `htonl (1 + sz)` then the
command letter then the payload. -/
def SET_COMMAND (cmd : Nat) (payload : List Nat) : List Nat :=
  be32enc ((payload.length + 1) % 2 ^ 32) ++ [cmd] ++ payload

/-- The single wire frame `rspamd_milter_send_action` builds for an action. -/
def encodeReply (a : OutAction) : List Nat :=
  SET_COMMAND (actionCmd a) (actionPayload a)

/-- The `rspamd_milter_send_action`: append one outbound buffer to the out
chain of the session (`DL_APPEND`), enter `WRITE_REPLY`, return TRUE. -/
def rspamd_milter_send_action (s : Session) (a : OutAction) : Session × Bool :=
  ({ s with outChain := s.outChain ++ [encodeReply a], state := .writeReply }, true)

/-- The `rspamd_milter_set_reply`: format `"%V %V %V"` of the three strings (in
the parameter order of the C signature) and send it as a REPLYCODE. -/
def rspamd_milter_set_reply (s : Session) (xcode rcode reply : List Nat) :
    Session × Bool :=
  rspamd_milter_send_action s (.replyCode (xcode ++ [32] ++ rcode ++ [32] ++ reply))

/-! ### The header-count map (`priv->headers`)

A `GHashTable` with `rspamd_strcase_hash` / `rspamd_strcase_equal`:
case-insensitive byte-string keys mapping to `gint` counts, modelled as an
association list with at most one entry per case-class. -/

def headersLookup (hm : List (List Nat × Int)) (k : List Nat) : Option Int :=
  (hm.find? (fun e => strcaseEq e.1 k)).map (fun e => e.2)

/-- The `g_hash_table_insert`: replace the value if a key of the same case-class
exists (glib keeps the old key), otherwise add an entry. -/
def headersInsert (hm : List (List Nat × Int)) (k : List Nat) (v : Int) :
    List (List Nat × Int) :=
  if (hm.find? (fun e => strcaseEq e.1 k)).isSome then
    hm.map (fun e => if strcaseEq e.1 k then (e.1, v) else e)
  else
    hm ++ [(k, v)]

/-- The `rspamd_milter_remove_header_safe`: look the name up in the header-count
map and emit CHGHEADER frames with an empty value according to the
requested position. -/
def rspamd_milter_remove_header_safe (s : Session) (key : List Nat)
    (nhdr : Int) : Session :=
  match headersLookup s.headers key with
  | none => s
  | some savedNhdr =>
    if nhdr ≥ 1 then
      (rspamd_milter_send_action s (.chgHeader nhdr.toNat key [])).1
    else if nhdr == 0 then
      (List.range savedNhdr.toNat).foldl
        (fun acc i =>
          (rspamd_milter_send_action acc (.chgHeader (i + 1) key [])).1) s
    else if nhdr ≥ -savedNhdr then
      (rspamd_milter_send_action s
        (.chgHeader (savedNhdr + nhdr + 1).toNat key [])).1
    else s

/-! ### Command dispatcher (`rspamd_milter_process_command`)

Each case function takes the parser buffer, the absolute payload offset
`cmdStart` (`parser.cmd_start`) and the payload length `cmdlen`
(`parser.datalen`), and returns the mutated session together with the
boolean the C function returns. -/

/-- The `RSPAMD_MILTER_CMD_CONNECT` case.  The `pos`/`end` pointers become
absolute offsets; `zero > (end - sizeof (guint16) + 1)` is the offset
comparison `z + 1 > endp`.  Note that the family byte and the port are read
at `z + 1 .. z + 3` without a bound against `endp` (cf. claim C2);
out-of-buffer reads yield 0 in the model where the C reads whatever memory
follows the frame. -/
def milterConnectCase (ext : MilterExt) (s : Session) (buf : List Nat)
    (cmdStart cmdlen : Nat) : Session × Bool :=
  let endp := cmdStart + cmdlen
  match memchrZ buf cmdStart cmdlen with
  | none => (onProtocolError s .connectNoName, false)
  | some z =>
    if z + 1 > endp then (onProtocolError s .connectNoName, false)
    else
      let s := { s with hostname := some (sliceL buf cmdStart (z - cmdStart)) }
      let proto := buf.getD (z + 1) 0
      if proto == CONN_UNKNOWN then (s, true)
      else
        let port := read16 buf (z + 2)
        let pos := z + 4
        if pos ≥ endp then (s, true)
        else
          match memchrZ buf pos (endp - pos) with
          | none => (onProtocolError s .connectNoIp, false)
          | some z2 =>
            if proto == CONN_UNIX then
              ({ s with addr := some ⟨AF_UNIX, sliceL buf pos (z2 - pos), 0⟩ },
               true)
            else if proto == CONN_INET then
              let s := { s with addr := some ⟨AF_INET, [], 0⟩ }
              if ext.parseIpOk AF_INET (sliceL buf pos (z2 - pos)) then
                ({ s with
                    addr := some ⟨AF_INET, sliceL buf pos (z2 - pos), port⟩ },
                 true)
              else (onProtocolError s .connectBadIPv4, false)
            else if proto == CONN_INET6 then
              let s := { s with addr := some ⟨AF_INET6, [], 0⟩ }
              -- "IPv6:" handling: strip the literal and add brackets when
              -- absent; `ip6_str` holds at most `INET6_ADDRSTRLEN + 2 = 48`
              -- characters, hence the `take 48` truncations.
              let ip6 : List Nat :=
                if z2 - pos > 6 ∧
                    strcaseEq (sliceL buf pos 5) [73, 80, 118, 54, 58] then
                  let pos2 := pos + 5
                  if buf.getD pos2 0 != 91 then
                    ([91] ++ sliceL buf pos2 (z2 - pos2) ++ [93]).take 48
                  else (sliceL buf pos2 (z2 - pos2)).take 48
                else (sliceL buf pos (z2 - pos)).take 48
              if ext.parseIpOk AF_INET6 ip6 then
                ({ s with addr := some ⟨AF_INET6, ip6, port⟩ }, true)
              else (onProtocolError s .connectBadIPv6, false)
            else (onProtocolError s .connectBadProto, false)

/-- Modelled from the spec: the `{mail_host}` macro name compared (case
sensitively, `rspamd_ftok_cstr_equal (…, FALSE)`) in the MACRO handler. -/
def MAIL_HOST_KEY : List Nat :=
  [123, 109, 97, 105, 108, 95, 104, 111, 115, 116, 125]

/-- The `g_hash_table_replace` on the case-insensitive macro table. -/
def macrosReplace (m : List (List Nat × List Nat)) (k v : List Nat) :
    List (List Nat × List Nat) :=
  if (m.find? (fun e => strcaseEq e.1 k)).isSome then
    m.map (fun e => if strcaseEq e.1 k then (k, v) else e)
  else
    m ++ [(k, v)]

/-- The MACRO name/value loop.  Faithful to the source including its window
arithmetic: both `memchr` calls search `cmdlen` bytes even though `pos` has
advanced, and `cmdlen` is only decremented by `zero_val - pos` per pair, so
the windows may extend past the frame (truncated at the end of the buffer in the
model, see `memchrZ`).  When the value search finds nothing the C code
compares `end > NULL` (true) and then reads with length `0 - zero - 1`:
undefined behaviour, marked `ubMacroValue`.  `fuel` dominates the iteration
count (`pos` grows by at least 2 per pair). -/
def macroLoop (fuel : Nat) (s : Session) (buf : List Nat)
    (pos endp cmdlen : Nat) : Session × Bool :=
  match fuel with
  | 0 => (s, true)
  | fuel + 1 =>
    if pos < endp then
      match memchrZ buf pos cmdlen with
      | none => (onProtocolError s .macroNoName, false)
      | some z =>
        match memchrZ buf (z + 1) cmdlen with
        | some zval =>
          if zval < endp then
            let name := sliceL buf pos (z - pos)
            let value := sliceL buf (z + 1) (zval - z - 1)
            let s := { s with
              macros := some (macrosReplace (s.macros.getD []) name value) }
            let s := if name == MAIL_HOST_KEY then
                { s with hostname := some value } else s
            macroLoop fuel s buf (zval + 1) endp (cmdlen - (zval - pos))
          else (onProtocolError s .macroBadValue, false)
        | none => (onProtocolError s .ubMacroValue, false)
    else (s, true)

/-- The `RSPAMD_MILTER_CMD_MACRO` case: skip the associated-command byte, then
run the pair loop. -/
def milterMacroCase (s : Session) (buf : List Nat) (cmdStart cmdlen : Nat) :
    Session × Bool :=
  let s := { s with macros := some (s.macros.getD []) }
  macroLoop (cmdlen + 1) s buf (cmdStart + 1) (cmdStart + cmdlen) cmdlen

/-- The `RSPAMD_MILTER_CMD_HEADER` case: NUL-terminated name then NUL-terminated
value; count the name and append `"name: value\r\n"` to the message. -/
def milterHeaderCase (s : Session) (buf : List Nat) (cmdStart cmdlen : Nat) :
    Session × Bool :=
  match memchrZ buf cmdStart cmdlen with
  | none => (onProtocolError s .headerNoName, false)
  | some z =>
    if cmdStart + cmdlen > z ∧ buf.getD (cmdStart + cmdlen - 1) 0 == 0 then
      let name := sliceL buf cmdStart (z - cmdStart)
      let num : Int :=
        match headersLookup s.headers name with
        | some n => n + 1
        | none => 1
      let value := sliceL buf (z + 1) (cmdStart + cmdlen - z - 2)
      ({ s with
          headers := headersInsert s.headers name num,
          message := some ((s.message.getD []) ++ name ++ [58, 32] ++ value ++
            [13, 10]) }, true)
    else (onProtocolError s .headerBadValue, false)

/-- The `RSPAMD_MILTER_CMD_HELO` case. -/
def milterHeloCase (s : Session) (buf : List Nat) (cmdStart cmdlen : Nat) :
    Session × Bool :=
  if cmdlen > 0 ∧ buf.getD (cmdStart + cmdlen - 1) 0 == 0 then
    ({ s with helo := some (sliceL buf cmdStart (cmdlen - 1)) }, true)
  else if cmdlen > 0 then
    ({ s with helo := some (sliceL buf cmdStart cmdlen) }, true)
  else (s, true)

/-- The `RSPAMD_MILTER_CMD_MAIL` case: parse the first NUL-separated token with
the external SMTP parser (both branches of the C loop `break`). -/
def milterMailCase (ext : MilterExt) (s : Session) (buf : List Nat)
    (cmdStart cmdlen : Nat) : Session × Bool :=
  if cmdlen == 0 then (s, true)
  else
    let parsed : Option EmailAddr :=
      match memchrZ buf cmdStart cmdlen with
      | some z =>
        if z > cmdStart then ext.emailFromSmtp (sliceL buf cmdStart (z - cmdStart))
        else ext.emailFromSmtp (sliceL buf cmdStart cmdlen)
      | none => ext.emailFromSmtp (sliceL buf cmdStart cmdlen)
    match parsed with
    | some a => ({ s with fromA := some a }, true)
    | none => (s, true)

/-- Append a recipient (`g_ptr_array_add`, creating the array if NULL). -/
def addRcptS (s : Session) (a : EmailAddr) : Session :=
  { s with rcpts := some (s.rcpts.getD [] ++ [a]) }

/-- The RCPT token loop: every NUL-separated token is parsed and appended;
a token with no NUL (or an empty one) is parsed as the whole remainder and
ends the loop. -/
def rcptLoop (ext : MilterExt) (fuel : Nat) (s : Session) (buf : List Nat)
    (pos endp : Nat) : Session :=
  match fuel with
  | 0 => s
  | fuel + 1 =>
    if pos < endp then
      match memchrZ buf pos (endp - pos) with
      | some z =>
        if z > pos then
          let s :=
            match ext.emailFromSmtp (sliceL buf pos (z - pos)) with
            | some a => addRcptS s a
            | none => s
          rcptLoop ext fuel s buf (z + 1) endp
        else
          match ext.emailFromSmtp (sliceL buf pos (endp - pos)) with
          | some a => addRcptS s a
          | none => s
      | none =>
        match ext.emailFromSmtp (sliceL buf pos (endp - pos)) with
        | some a => addRcptS s a
        | none => s
    else s

/-- The `RSPAMD_MILTER_CMD_OPTNEG` case: exactly three big-endian 32-bit words;
reject old protocol versions, otherwise reply OPTNEG with the supported
version, the actions with `RSPAMD_MILTER_ACTIONS_MASK` or-ed in, and
`RSPAMD_MILTER_FLAG_NOREPLY_MASK`. -/
def milterOptnegCase (cs : MilterConsts) (s : Session) (buf : List Nat)
    (cmdStart cmdlen : Nat) : Session × Bool :=
  if cmdlen != 12 then (onProtocolError s .optnegBadLen, false)
  else
    let version := read32 buf cmdStart
    let actions := read32 buf (cmdStart + 4)
    if version < cs.protoVer then (onProtocolError s .optnegBadVersion, false)
    else
      rspamd_milter_send_action s
        (.optneg cs.protoVer (actions ||| cs.actionsMask) cs.noreplyMask)

/-- The `RSPAMD_MILTER_CMD_QUIT` case: with pending output enter
`WRITE_AND_DIE`; otherwise enter `WANNA_DIE`, fire `fin_cb` and stop. -/
def milterQuitCase (s : Session) : Session × Bool :=
  if s.outChain ≠ [] then ({ s with state := .writeAndDie }, true)
  else ({ s with state := .wannaDie, finCbCount := s.finCbCount + 1 }, false)

/-- The `rspamd_milter_process_command`: dispatch on `parser.cur_cmd`, reading
the payload at `parser.cmd_start` with length `parser.datalen`. -/
def rspamd_milter_process_command (ext : MilterExt) (cs : MilterConsts)
    (s : Session) (pr : MParser) : Session × Bool :=
  let buf := pr.buf
  let cmdStart := pr.cmdStart
  let cmdlen := pr.datalen
  if pr.curCmd == CMD_ABORT then
    (rspamd_milter_session_reset s RESET_ABORT, true)
  else if pr.curCmd == CMD_BODY then
    ({ s with message := some (s.message.getD [] ++ sliceL buf cmdStart cmdlen) },
     true)
  else if pr.curCmd == CMD_CONNECT then
    milterConnectCase ext s buf cmdStart cmdlen
  else if pr.curCmd == CMD_MACRO then
    milterMacroCase s buf cmdStart cmdlen
  else if pr.curCmd == CMD_BODYEOB then
    ({ s with finCbCount := s.finCbCount + 1 }, true)
  else if pr.curCmd == CMD_HELO then
    milterHeloCase s buf cmdStart cmdlen
  else if pr.curCmd == CMD_QUIT_NC then
    (rspamd_milter_session_reset s RESET_QUIT_NC, true)
  else if pr.curCmd == CMD_HEADER then
    milterHeaderCase s buf cmdStart cmdlen
  else if pr.curCmd == CMD_MAIL then
    milterMailCase ext s buf cmdStart cmdlen
  else if pr.curCmd == CMD_EOH then
    ({ s with message := some (s.message.getD [] ++ [13, 10]) }, true)
  else if pr.curCmd == CMD_OPTNEG then
    milterOptnegCase cs s buf cmdStart cmdlen
  else if pr.curCmd == CMD_QUIT then
    milterQuitCase s
  else if pr.curCmd == CMD_RCPT then
    (rcptLoop ext (cmdlen + 1) s buf cmdStart (cmdStart + cmdlen), true)
  else if pr.curCmd == CMD_DATA then
    ({ s with message := some (s.message.getD []) }, true)
  else
    -- default: "got bad command", accepted silently
    (s, true)

/-! ### Parser loop (`rspamd_milter_consume_input`) -/

/-- Result of one `rspamd_milter_consume_input` call: the mutated session
and parser, the `(cmd, payload)` pairs handed to
`rspamd_milter_process_command` in order, and the boolean return. -/
structure ConsumeOut where
  s : Session
  pr : MParser
  events : List (Nat × List Nat)
  ret : Bool
deriving DecidableEq, Repr

/-- The `if (p == end) { buf->len = 0; pos = 0; }` epilogue of
`consume_input` (reached only when the while loop ran to completion).
`parser.cmd_start` is NOT reset here — the source of the desync of claim
C3. -/
def finishConsume (s : Session) (pr : MParser) (p : Nat)
    (evs : List (Nat × List Nat)) : ConsumeOut :=
  if p == pr.buf.length then ⟨s, { pr with buf := [], pos := 0 }, evs, true⟩
  else ⟨s, pr, evs, true⟩

/-- The while loop of `rspamd_milter_consume_input` plus its leftover and
epilogue code.  `p` is the absolute read offset; one fuel unit is one loop
iteration (every iteration either consumes a byte or moves `st_read_data`
to `st_len_1`, so `2 * buf.length + 4` units always suffice — see
`rspamd_milter_consume_input`).  The capacity-grow branch
(`buf->allocated < datalen`) only grows the buffer and saves `pos`, which
under an unbounded capacity coincides with the need-more branch modelled
here (`allocated < datalen` implies `p + datalen > buf->len`). -/
def consumeLoop (ext : MilterExt) (cs : MilterConsts) :
    Nat → Session → MParser → Nat → List (Nat × List Nat) → ConsumeOut
  | 0, s, pr, p, evs => ⟨s, { pr with pos := p }, evs, true⟩
  | fuel + 1, s, pr, p, evs =>
    if p < pr.buf.length then
      match pr.fsm with
      | .len1 =>
        consumeLoop ext cs fuel s
          { pr with datalen := 0 ||| (pr.buf.getD p 0 <<< 24), fsm := .len2 }
          (p + 1) evs
      | .len2 =>
        consumeLoop ext cs fuel s
          { pr with datalen := pr.datalen ||| (pr.buf.getD p 0 <<< 16),
                    fsm := .len3 } (p + 1) evs
      | .len3 =>
        consumeLoop ext cs fuel s
          { pr with datalen := pr.datalen ||| (pr.buf.getD p 0 <<< 8),
                    fsm := .len4 } (p + 1) evs
      | .len4 =>
        consumeLoop ext cs fuel s
          { pr with datalen := pr.datalen ||| pr.buf.getD p 0, fsm := .readCmd }
          (p + 1) evs
      | .readCmd =>
        if pr.datalen < 1 then
          ⟨onProtocolError s .cmdTooShort,
           { pr with curCmd := pr.buf.getD p 0, fsm := .readData }, evs, false⟩
        else
          consumeLoop ext cs fuel s
            { pr with curCmd := pr.buf.getD p 0, fsm := .readData,
                      datalen := pr.datalen - 1, cmdStart := p + 1 }
            (p + 1) evs
      | .readData =>
        if pr.datalen > cs.chunkMax * 2 then
          ⟨onProtocolError s .cmdTooBig, pr, evs, false⟩
        else if ¬ rspamd_milter_is_valid_cmd pr.curCmd then
          ⟨onProtocolError s .cmdInvalid, pr, evs, false⟩
        else if p + pr.datalen ≤ pr.buf.length then
          let payload := sliceL pr.buf pr.cmdStart pr.datalen
          let r := rspamd_milter_process_command ext cs s pr
          let evs := evs ++ [(pr.curCmd, payload)]
          if r.2 then
            consumeLoop ext cs fuel r.1
              { pr with fsm := .len1, curCmd := 0, cmdStart := 0 }
              (p + pr.datalen) evs
          else ⟨r.1, pr, evs, false⟩
        else
          -- need more bytes (or a larger buffer): save the cursor, plan a
          -- read, and return without the epilogue (`goto end`)
          ⟨s, { pr with pos := p }, evs, true⟩
    else
      -- leftover: the loop consumed the whole buffer (p == end)
      match pr.fsm with
      | .readData =>
        if p + pr.datalen ≤ pr.buf.length then
          let payload := sliceL pr.buf pr.cmdStart pr.datalen
          let r := rspamd_milter_process_command ext cs s pr
          let evs := evs ++ [(pr.curCmd, payload)]
          if r.2 then
            finishConsume r.1
              { pr with fsm := .len1, curCmd := 0, cmdStart := 0 } p evs
          else ⟨r.1, pr, evs, false⟩
        else finishConsume s pr p evs
      | _ => finishConsume s pr p evs

/-- The `rspamd_milter_consume_input`: run the loop from the saved cursor. -/
def rspamd_milter_consume_input (ext : MilterExt) (cs : MilterConsts)
    (s : Session) (pr : MParser) : ConsumeOut :=
  consumeLoop ext cs (2 * pr.buf.length + 4) s pr pr.pos []

/-- One read: the I/O driver appends the bytes read at `buf->len` and calls
`consume_input`. -/
def milterFeed (ext : MilterExt) (cs : MilterConsts) (s : Session)
    (pr : MParser) (chunk : List Nat) : ConsumeOut :=
  rspamd_milter_consume_input ext cs s { pr with buf := pr.buf ++ chunk }

/-- Feed successive read chunks, concatenating the dispatched events. -/
def milterFeedMany (ext : MilterExt) (cs : MilterConsts) :
    Session → MParser → List (List Nat) →
    Session × MParser × List (Nat × List Nat)
  | s, pr, [] => (s, pr, [])
  | s, pr, c :: rest =>
    let out := milterFeed ext cs s pr c
    let next := milterFeedMany ext cs out.s out.pr rest
    (next.1, next.2.1, out.events ++ next.2.2)

/-- A fresh session as `rspamd_milter_handle_socket` builds it
(`g_malloc0`, so every pointer NULL and every flag clear;
`discard_on_reject` copied from the library context). -/
def initSession (discardOnReject : Bool) : Session :=
  { hostname := none, helo := none, fromA := none, rcpts := none,
    message := none, addr := none, macros := none, headers := [],
    state := .readMore, outChain := [], discardOnReject := discardOnReject,
    noAction := false, errCbInvoked := false, finCbCount := 0,
    lastError := none }

/-- A fresh parser (`parser.state = st_len_1`, empty buffer). -/
def initParser : MParser :=
  { fsm := .len1, datalen := 0, curCmd := 0, cmdStart := 0, pos := 0,
    buf := [] }

/-! ### Frame codec, decoding direction (section 4.1)

The decode primitive consists of the `st_len_1 .. st_read_cmd` stages plus
the payload extraction, as a pure function on a byte list. -/

/-- Decode length-and-command from the head of a byte stream: four
big-endian length bytes (accumulated exactly as the parser FSM does), the
command byte, then `len - 1` payload bytes; returns
`(cmd, payload, remaining bytes)`. -/
def decodeFrame (l : List Nat) : Option (Nat × List Nat × List Nat) :=
  match l with
  | b0 :: b1 :: b2 :: b3 :: c :: rest =>
    let n := (((0 ||| (b0 <<< 24)) ||| (b1 <<< 16)) ||| (b2 <<< 8)) ||| b3
    if 1 ≤ n ∧ n - 1 ≤ rest.length then
      some (c, rest.take (n - 1), rest.drop (n - 1))
    else none
  | _ => none

/-! ### Read instrumentation for the CONNECT handler (claim C2) -/

/-- Mirrors the control flow of the CONNECT case of
`rspamd_milter_process_command` and returns `true` exactly when that
control flow reaches a byte read at an offset `≥ cmdlen`, i.e. past the
payload of the frame: the family byte at `z + 1` and the port bytes at
`z + 2, z + 3` are read unguarded (the guard
`zero > (end - sizeof (guint16) + 1)` reduces to `z > cmdlen - 1`, which
never holds).  All later reads are bounded by `memchr`/`zero`
computations inside the frame.  The decision point `proto == CONN_UNKNOWN`
is the first possibly-out-of-frame read itself, so the function reports
`true` before consulting it when `z + 1 ≥ cmdlen`. -/
def connectReadsPastFrame (payload : List Nat) : Bool :=
  match memchrOff payload with
  | none => false                      -- protocol error, nothing read past
  | some z =>
    if z + 1 > payload.length then false   -- the (ineffective) C guard
    else if z + 1 ≥ payload.length then true  -- family byte out of frame
    else if payload.getD (z + 1) 0 == CONN_UNKNOWN then false
    else z + 3 ≥ payload.length            -- port bytes out of frame

/-! ### Verdict translator (`rspamd_milter_send_task_results`) -/

/-- Modelled from the spec: the metric actions of `libmime/filter.h`
(not among the studied sources) that section 4.7 recognizes. -/
inductive MetricAction where
  | reject
  | softReject
  | rewriteSubject
  | addHeader
  | greylist
  | noaction
deriving DecidableEq, Repr

/-- Modelled from the spec: `rspamd_action_from_str` (external): map the
action strings of section 4.7 to metric actions; on an unrecognized string
the out-parameter keeps its previous value. -/
def rspamd_action_from_str (b : List Nat) (dflt : MetricAction) :
    MetricAction :=
  if b == [114, 101, 106, 101, 99, 116] then .reject  -- "reject"
  else if b == [115, 111, 102, 116, 32, 114, 101, 106, 101, 99, 116] then
    .softReject
  else if b == [114, 101, 119, 114, 105, 116, 101, 32,
                115, 117, 98, 106, 101, 99, 116] then .rewriteSubject
  else if b == [97, 100, 100, 32, 104, 101, 97, 100, 101, 114] then
    .addHeader
  else if b == [103, 114, 101, 121, 108, 105, 115, 116] then .greylist
  else if b == [110, 111, 32, 97, 99, 116, 105, 111, 110] then .noaction
  else dflt

/-- One value under an `add_headers` key: a plain string, or (since 1.7) an
object with `value` and an optional `order`/`index`. -/
inductive AddHVal where
  | hstr (v : List Nat)
  | hobj (value : Option (List Nat)) (order : Option Int)
deriving DecidableEq, Repr

/-- The `spam_header` override in the milter block: a string or an object
of name/value pairs. -/
inductive SpamHdrVal where
  | hstr (v : List Nat)
  | hobj (entries : List (List Nat × List Nat))
deriving DecidableEq, Repr

/-- The `milter` sub-object of a verdict.  Fields are `none`/`[]` both when
the key is absent and when it has a UCL type the C code ignores. -/
structure MilterBlock where
  removeHeaders : List (List Nat × Int)
  addHeaders : List (List Nat × List AddHVal)
  changeFrom : Option (List Nat)
  rejectKey : Option (List Nat)
  noActionKey : Option Bool
  spamHeaderKey : Option SpamHdrVal
deriving DecidableEq, Repr

/-- The scan verdict object, restricted to the keys the translator reads. -/
structure Verdict where
  action : Option (List Nat)
  smtpMessage : Option (List Nat)
  milterBlock : Option MilterBlock
  dkimSignature : Option (List Nat)
  subject : Option (List Nat)
deriving DecidableEq, Repr

/-- The string "discard". -/
def DISCARD_STR : List Nat := [100, 105, 115, 99, 97, 114, 100]

/-- Modelled from the spec: `RSPAMD_MILTER_DKIM_HEADER` =
"DKIM-Signature" (section 4.7). -/
def DKIM_HEADER : List Nat :=
  [68, 75, 73, 77, 45, 83, 105, 103, 110, 97, 116, 117, 114, 101]

/-- Modelled from the spec: `RSPAMD_MILTER_ACTION_HEADER` =
"X-Spam-Action" (section 4.7, `no_action` path). -/
def ACTION_HEADER : List Nat :=
  [88, 45, 83, 112, 97, 109, 45, 65, 99, 116, 105, 111, 110]

/-- The string "Subject". -/
def SUBJECT_HEADER : List Nat := [83, 117, 98, 106, 101, 99, 116]

/-- The string "Yes". -/
def YES_STR : List Nat := [89, 101, 115]

/-- Modelled from the spec: reply codes of sections 4.7 and 7
(`RSPAMD_MILTER_RCODE_REJECT` "554", `RSPAMD_MILTER_XCODE_REJECT` "5.7.1",
`RSPAMD_MILTER_RCODE_TEMPFAIL` "451", `RSPAMD_MILTER_XCODE_TEMPFAIL`
"4.7.1"; `milter.h` is not among the studied sources). -/
def RCODE_REJECT : List Nat := [53, 53, 52]
def XCODE_REJECT : List Nat := [53, 46, 55, 46, 49]
def RCODE_TEMPFAIL : List Nat := [52, 53, 49]
def XCODE_TEMPFAIL : List Nat := [52, 46, 55, 46, 49]

/-- One `add_headers` value: `idx` is the `gint idx` local of
`rspamd_milter_process_milter_block`, declared once per call and hence
carried across iterations. -/
def processAddHVal (acc : Session × Int) (key : List Nat) (v : AddHVal) :
    Session × Int :=
  match v with
  | .hstr val =>
    ((rspamd_milter_send_action acc.1 (.addHeader key val)).1, acc.2)
  | .hobj value order =>
    match value with
    | some val =>
      let idx := match order with | some o => o | none => acc.2
      if idx ≥ 0 then
        ((rspamd_milter_send_action acc.1 (.insHeader idx.toNat key val)).1,
         idx)
      else
        ((rspamd_milter_send_action acc.1 (.addHeader key val)).1, idx)
    | none => acc

/-- The `rspamd_milter_process_milter_block`: apply the `milter` sub-object and
report whether the action was handled here (the `spam_header` override). -/
def rspamd_milter_process_milter_block (cs : MilterConsts) (s : Session)
    (obj : MilterBlock) (action : MetricAction) : Session × Bool :=
  let s := obj.removeHeaders.foldl
    (fun acc e => rspamd_milter_remove_header_safe acc e.1 e.2) s
  let s := (obj.addHeaders.foldl
    (fun acc e => e.2.foldl (fun a2 v => processAddHVal a2 e.1 v) acc)
    (s, (-1 : Int))).1
  let s := match obj.changeFrom with
    | some v => (rspamd_milter_send_action s (.chgFrom v)).1
    | none => s
  let s := match obj.rejectKey with
    | some v => { s with discardOnReject := v == DISCARD_STR }
    | none => s
  let s := match obj.noActionKey with
    | some b => { s with noAction := b }
    | none => s
  if action == .addHeader then
    match obj.spamHeaderKey with
    | some (.hstr v) =>
      let s := rspamd_milter_remove_header_safe s cs.spamHeader 0
      let s := (rspamd_milter_send_action s
        (.chgHeader 1 cs.spamHeader v)).1
      ((rspamd_milter_send_action s .accept).1, true)
    | some (.hobj entries) =>
      let s := entries.foldl (fun acc e =>
        let acc := rspamd_milter_remove_header_safe acc e.1 0
        (rspamd_milter_send_action acc (.chgHeader 1 e.1 e.2)).1) s
      ((rspamd_milter_send_action s .accept).1, true)
    | none => (s, false)
  else (s, false)

/-- The `milter` stage of `send_task_results`: run the block when the key
is present. -/
def milterVerdictStage (cs : MilterConsts) (s : Session) (r : Verdict)
    (action : MetricAction) : Session × Bool :=
  match r.milterBlock with
  | some mb => rspamd_milter_process_milter_block cs s mb action
  | none => (s, false)

/-- The `dkim-signature` stage of `send_task_results`: insert the signature
as the first header. -/
def dkimVerdictStage (s : Session) (r : Verdict) : Session :=
  match r.dkimSignature with
  | some v => (rspamd_milter_send_action s (.insHeader 1 DKIM_HEADER v)).1
  | none => s

/-- The `rspamd_milter_send_task_results`: translate a verdict into milter
actions. -/
def rspamd_milter_send_task_results (cs : MilterConsts) (s : Session)
    (results : Option Verdict) : Session :=
  match results with
  | none => (rspamd_milter_send_action s .tempfail).1
  | some r =>
    match r.action with
    | none => (rspamd_milter_send_action s .tempfail).1
    | some astr =>
      let action := rspamd_action_from_str astr .reject
      let reply := r.smtpMessage
      let mres := milterVerdictStage cs s r action
      let s := dkimVerdictStage mres.1 r
      if mres.2 then s
      else if s.noAction then
        let s := (rspamd_milter_send_action s
          (.addHeader ACTION_HEADER astr)).1
        (rspamd_milter_send_action s .accept).1
      else
        match action with
        | .reject =>
          if s.discardOnReject then
            (rspamd_milter_send_action s .discard).1
          else
            let reply := reply.getD cs.rejectMessage
            let s := (rspamd_milter_set_reply s RCODE_REJECT XCODE_REJECT
              reply).1
            (rspamd_milter_send_action s .reject).1
        | .softReject =>
          let reply := reply.getD cs.tempfailMessage
          let s := (rspamd_milter_set_reply s RCODE_TEMPFAIL XCODE_TEMPFAIL
            reply).1
          (rspamd_milter_send_action s .reject).1
        | .rewriteSubject =>
          let s := match r.subject with
            | some subj =>
              (rspamd_milter_send_action s
                (.chgHeader 1 SUBJECT_HEADER subj)).1
            | none => s
          (rspamd_milter_send_action s .accept).1
        | .addHeader =>
          let s := rspamd_milter_remove_header_safe s cs.spamHeader 0
          let s := (rspamd_milter_send_action s
            (.chgHeader 1 cs.spamHeader YES_STR)).1
          (rspamd_milter_send_action s .accept).1
        | .greylist | .noaction =>
          (rspamd_milter_send_action s .accept).1

/-! ### Auxiliary definitions for the statements -/

/-- Dispatch of one HEADER frame carrying `name\0value\0` through
`rspamd_milter_process_command` (payload at offset 0 of the parser
buffer, as after a fresh consume cycle). -/
def milterApplyHeader (ext : MilterExt) (cs : MilterConsts) (s : Session)
    (p : List Nat × List Nat) : Session :=
  (rspamd_milter_process_command ext cs s
    { fsm := .readData, datalen := p.1.length + p.2.length + 2,
      curCmd := CMD_HEADER, cmdStart := 0, pos := 0,
      buf := p.1 ++ [0] ++ p.2 ++ [0] }).1

/-- How many of the recorded header names fall in the case-class of `H` (the
key equality of `priv->headers`). -/
def headerSeenCount (pairs : List (List Nat × List Nat)) (H : List Nat) :
    Nat :=
  pairs.countP (fun p => strcaseEq p.1 H)

/-- The length accumulated by the four `st_len_*` states from the four
length bytes. -/
def lenAccum (l0 l1 l2 l3 : Nat) : Nat :=
  (((0 ||| (l0 <<< 24)) ||| (l1 <<< 16)) ||| (l2 <<< 8)) ||| l3

/-- The string "reject". -/
def ACTION_REJECT_STR : List Nat := [114, 101, 106, 101, 99, 116]

/-- An `Option` fstring that is NULL or has length zero (both states the
reset code leaves behind count as an empty field). -/
def fstrEmpty (o : Option (List Nat)) : Prop :=
  o = none ∨ o = some []

/-! ### Concrete instances for witnesses -/

/-- A trivial instantiation of the external collaborators (used only to
evaluate witnesses; every theorem quantifies over `MilterExt`). -/
def trivExt : MilterExt :=
  { emailFromSmtp := fun b => some ⟨b⟩, parseIpOk := fun _ _ => true }

/-- Concrete constants for witnesses (`chunkMax` as the example
value; every theorem quantifies over `MilterConsts`). -/
def witConsts : MilterConsts :=
  { protoVer := 2, actionsMask := 511, noreplyMask := 127,
    chunkMax := 65536, spamHeader := [88, 45, 83, 112, 97, 109],
    rejectMessage := [110, 111], tempfailMessage := [119, 97, 105, 116] }

/-! ## Helper lemmas -/

/-- Or-ing disjoint bit ranges is addition: a multiple of `2 ^ k` or-ed
with a value below `2 ^ k`. -/
theorem mulPow_lor_eq_add (k : Nat) :
    ∀ a b : Nat, b < 2 ^ k → (a * 2 ^ k) ||| b = a * 2 ^ k + b := by
  induction k with
  | zero =>
    intro a b hb
    interval_cases b
    simp
  | succ k ih =>
    intro a b hb
    have hbit : Nat.bit (decide (b % 2 = 1)) (b >>> 1) = b :=
      Nat.bit_decide_mod_two_eq_one_shiftRight_one b
    have hbit2 : Nat.bit false (a * 2 ^ k) = a * 2 ^ (k + 1) := by
      simp [Nat.bit_val, Nat.pow_succ]
      ring
    have hdiv : b >>> 1 = b / 2 := Nat.shiftRight_one b
    have hlt : b / 2 < 2 ^ k := by
      have h2 : 2 ^ (k + 1) = 2 * 2 ^ k := by ring
      omega
    calc (a * 2 ^ (k + 1)) ||| b
        = Nat.bit false (a * 2 ^ k) ||| Nat.bit (decide (b % 2 = 1)) (b >>> 1) := by
          rw [hbit, hbit2]
      _ = Nat.bit (false || decide (b % 2 = 1)) ((a * 2 ^ k) ||| (b >>> 1)) :=
          Nat.lor_bit false (a * 2 ^ k) (decide (b % 2 = 1)) (b >>> 1)
      _ = Nat.bit (decide (b % 2 = 1)) (a * 2 ^ k + b / 2) := by
          rw [Bool.false_or, hdiv, ih a (b / 2) hlt]
      _ = a * 2 ^ (k + 1) + b := by
          rw [Nat.bit_val]
          have h2 : a * 2 ^ (k + 1) = 2 * (a * 2 ^ k) := by ring
          rw [h2]
          generalize a * 2 ^ k = x
          rcases Nat.mod_two_eq_zero_or_one b with h | h <;> simp [h] <;> omega

/-- The length accumulation of the parser inverts the big-endian encoding. -/
theorem lenAccum_be32enc (n : Nat) (h : n < 2 ^ 32) :
    lenAccum ((n >>> 24) % 256) ((n >>> 16) % 256)
      ((n >>> 8) % 256) (n % 256) = n := by
  unfold lenAccum
  rw [Nat.zero_or]
  rw [Nat.shiftLeft_eq, Nat.shiftLeft_eq, Nat.shiftLeft_eq]
  rw [Nat.shiftRight_eq_div_pow, Nat.shiftRight_eq_div_pow,
    Nat.shiftRight_eq_div_pow]
  have e1 : (n / 2 ^ 24 % 256) * 2 ^ 24 ||| (n / 2 ^ 16 % 256) * 2 ^ 16 =
      (n / 2 ^ 24 % 256) * 2 ^ 24 + (n / 2 ^ 16 % 256) * 2 ^ 16 := by
    apply mulPow_lor_eq_add 24
    have h1 : n / 2 ^ 16 % 256 < 256 := Nat.mod_lt _ (by norm_num)
    norm_num at h1 ⊢
    omega
  have e2 : ((n / 2 ^ 24 % 256) * 2 ^ 24 + (n / 2 ^ 16 % 256) * 2 ^ 16) |||
      (n / 2 ^ 8 % 256) * 2 ^ 8 =
      (n / 2 ^ 24 % 256) * 2 ^ 24 + (n / 2 ^ 16 % 256) * 2 ^ 16 +
      (n / 2 ^ 8 % 256) * 2 ^ 8 := by
    have hr : (n / 2 ^ 24 % 256) * 2 ^ 24 + (n / 2 ^ 16 % 256) * 2 ^ 16 =
        ((n / 2 ^ 24 % 256) * 2 ^ 8 + n / 2 ^ 16 % 256) * 2 ^ 16 := by ring
    rw [hr]
    have hb := mulPow_lor_eq_add 16
      ((n / 2 ^ 24 % 256) * 2 ^ 8 + n / 2 ^ 16 % 256)
      ((n / 2 ^ 8 % 256) * 2 ^ 8) (by
        have h1 : n / 2 ^ 8 % 256 < 256 := Nat.mod_lt _ (by norm_num)
        norm_num at h1 ⊢
        omega)
    rw [hb]
  have e3 : ((n / 2 ^ 24 % 256) * 2 ^ 24 + (n / 2 ^ 16 % 256) * 2 ^ 16 +
      (n / 2 ^ 8 % 256) * 2 ^ 8) ||| n % 256 =
      (n / 2 ^ 24 % 256) * 2 ^ 24 + (n / 2 ^ 16 % 256) * 2 ^ 16 +
      (n / 2 ^ 8 % 256) * 2 ^ 8 + n % 256 := by
    have hr : (n / 2 ^ 24 % 256) * 2 ^ 24 + (n / 2 ^ 16 % 256) * 2 ^ 16 +
        (n / 2 ^ 8 % 256) * 2 ^ 8 =
        ((n / 2 ^ 24 % 256) * 2 ^ 16 + (n / 2 ^ 16 % 256) * 2 ^ 8 +
          n / 2 ^ 8 % 256) * 2 ^ 8 := by ring
    rw [hr]
    have hb := mulPow_lor_eq_add 8 ((n / 2 ^ 24 % 256) * 2 ^ 16 +
      (n / 2 ^ 16 % 256) * 2 ^ 8 + n / 2 ^ 8 % 256) (n % 256)
      (Nat.mod_lt _ (by norm_num))
    rw [hb]
  rw [e1, e2, e3]
  norm_num
  omega

/-- The `take` of the length of a left factor. -/
theorem take_len_append (l r : List Nat) : (l ++ r).take l.length = l := by
  induction l with
  | nil => simp
  | cons a t ih => simp [ih]

/-- The `getD` at the junction of an append. -/
theorem getD_append_len (l r : List Nat) (x d : Nat) :
    (l ++ x :: r).getD l.length d = x := by
  induction l with
  | nil => simp
  | cons a t ih => simpa using ih

/-- The `memchr` finds the first NUL right after a NUL-free block. -/
theorem memchrOff_append_zero (l r : List Nat) (h : 0 ∉ l) :
    memchrOff (l ++ 0 :: r) = some l.length := by
  induction l with
  | nil => simp [memchrOff]
  | cons a t ih =>
    have ha : a ≠ 0 := by intro e; exact h (by simp [e])
    have ht : 0 ∉ t := by intro e; exact h (by simp [e])
    simp [memchrOff, ha, ih ht]

/-- Case-class membership expressed through the lowercased images. -/
theorem strcaseEq_iff (a b : List Nat) :
    strcaseEq a b = true ↔ a.map asciiLower = b.map asciiLower := by
  simp [strcaseEq]

/-- The `headersLookup` only depends on the case-class of the key. -/
theorem headersLookup_congr :
    ∀ (hm : List (List Nat × Int)) (a b : List Nat),
      strcaseEq a b = true → headersLookup hm a = headersLookup hm b
  | [], _, _, _ => rfl
  | e :: t, a, b, h => by
    have hab : a.map asciiLower = b.map asciiLower := (strcaseEq_iff a b).1 h
    have hpred : strcaseEq e.1 a = strcaseEq e.1 b := by
      simp [strcaseEq, hab]
    have iht := headersLookup_congr t a b h
    by_cases hc : strcaseEq e.1 b = true
    · have hca : strcaseEq e.1 a = true := by rw [hpred]; exact hc
      simp [headersLookup, List.find?_cons, hca, hc]
    · have hcb : strcaseEq e.1 b = false := by simpa using hc
      have hca : strcaseEq e.1 a = false := by rw [hpred]; exact hcb
      simpa [headersLookup, List.find?_cons, hca, hcb] using iht

/-- The `find?` with the header predicate over a cons, matching head. -/
theorem findHdr_cons_pos (e : List Nat × Int) (t : List (List Nat × Int))
    (n : List Nat) (h : strcaseEq e.1 n = true) :
    List.find? (fun x => strcaseEq x.1 n) (e :: t) = some e := by
  have h2 : (fun x : List Nat × Int => strcaseEq x.1 n) e = true := h
  exact List.find?_cons_of_pos _ h2

/-- The `find?` with the header predicate over a cons, non-matching head. -/
theorem findHdr_cons_neg (e : List Nat × Int) (t : List (List Nat × Int))
    (n : List Nat) (h : strcaseEq e.1 n = false) :
    List.find? (fun x => strcaseEq x.1 n) (e :: t) =
      List.find? (fun x => strcaseEq x.1 n) t := by
  have h2 : ¬ ((fun x : List Nat × Int => strcaseEq x.1 n) e = true) := by
    simp [h]
  exact List.find?_cons_of_neg _ h2

/-- The `headersLookup` over a cons, matching head. -/
theorem headersLookup_cons_pos (e : List Nat × Int)
    (t : List (List Nat × Int)) (k : List Nat) (h : strcaseEq e.1 k = true) :
    headersLookup (e :: t) k = some e.2 := by
  unfold headersLookup
  rw [findHdr_cons_pos e t k h]
  rfl

/-- The `headersLookup` over a cons, non-matching head. -/
theorem headersLookup_cons_neg (e : List Nat × Int)
    (t : List (List Nat × Int)) (k : List Nat) (h : strcaseEq e.1 k = false) :
    headersLookup (e :: t) k = headersLookup t k := by
  unfold headersLookup
  rw [findHdr_cons_neg e t k h]

/-- Lookup after the replace branch of `headersInsert`, key in the inserted
case-class. -/
theorem lookup_replace_rel :
    ∀ (hm : List (List Nat × Int)) (n H : List Nat) (v : Int),
      strcaseEq n H = true →
      headersLookup (hm.map (fun e => if strcaseEq e.1 n then (e.1, v) else e))
          H =
        if (hm.find? (fun e => strcaseEq e.1 n)).isSome then some v else none
  | [], _, _, _, _ => by simp [headersLookup]
  | e :: t, n, H, v, h => by
    have hnH : n.map asciiLower = H.map asciiLower := (strcaseEq_iff n H).1 h
    have hpred : strcaseEq e.1 n = strcaseEq e.1 H := by
      simp [strcaseEq, hnH]
    have iht := lookup_replace_rel t n H v h
    by_cases hc : strcaseEq e.1 n = true
    · have hcH : strcaseEq e.1 H = true := by rw [← hpred]; exact hc
      rw [List.map_cons, if_pos hc,
        headersLookup_cons_pos ⟨e.1, v⟩ _ H hcH,
        findHdr_cons_pos e t n hc]
      simp
    · have hcf : strcaseEq e.1 n = false := by simpa using hc
      have hcH : strcaseEq e.1 H = false := by rw [← hpred]; exact hcf
      rw [List.map_cons, if_neg (by simp [hcf]),
        headersLookup_cons_neg e _ H hcH, iht,
        findHdr_cons_neg e t n hcf]

/-- Lookup after the replace branch of `headersInsert`, key outside the
inserted case-class: untouched. -/
theorem lookup_replace_unrel :
    ∀ (hm : List (List Nat × Int)) (n H : List Nat) (v : Int),
      strcaseEq n H = false →
      headersLookup (hm.map (fun e => if strcaseEq e.1 n then (e.1, v) else e))
          H = headersLookup hm H
  | [], _, _, _, _ => rfl
  | e :: t, n, H, v, h => by
    have iht := lookup_replace_unrel t n H v h
    by_cases hc : strcaseEq e.1 n = true
    · have hcH : strcaseEq e.1 H = false := by
        by_contra hx
        have hx2 : strcaseEq e.1 H = true := by simpa using hx
        have h1 : e.1.map asciiLower = n.map asciiLower :=
          (strcaseEq_iff e.1 n).1 hc
        have h2 : e.1.map asciiLower = H.map asciiLower :=
          (strcaseEq_iff e.1 H).1 hx2
        have hh : strcaseEq n H = true := (strcaseEq_iff n H).2 (h1 ▸ h2)
        rw [hh] at h
        exact Bool.noConfusion h
      rw [List.map_cons, if_pos hc,
        headersLookup_cons_neg ⟨e.1, v⟩ _ H hcH,
        headersLookup_cons_neg e _ H hcH, iht]
    · have hcf : strcaseEq e.1 n = false := by simpa using hc
      by_cases hcH : strcaseEq e.1 H = true
      · rw [List.map_cons, if_neg (by simp [hcf]),
          headersLookup_cons_pos e _ H hcH, headersLookup_cons_pos e _ H hcH]
      · have hcHf : strcaseEq e.1 H = false := by simpa using hcH
        rw [List.map_cons, if_neg (by simp [hcf]),
          headersLookup_cons_neg e _ H hcHf,
          headersLookup_cons_neg e _ H hcHf, iht]

/-- Lookup after the append branch of `headersInsert`. -/
theorem lookup_append_single :
    ∀ (hm : List (List Nat × Int)) (n H : List Nat) (v : Int),
      headersLookup (hm ++ [(n, v)]) H =
        match headersLookup hm H with
        | some c => some c
        | none => if strcaseEq n H then some v else none
  | [], n, H, v => by
    by_cases hc : strcaseEq n H = true
    · rw [List.nil_append, headersLookup_cons_pos ⟨n, v⟩ _ H hc]
      simp [headersLookup, hc]
    · have hcf : strcaseEq n H = false := by simpa using hc
      rw [List.nil_append, headersLookup_cons_neg ⟨n, v⟩ _ H hcf]
      simp [headersLookup, hcf]
  | e :: t, n, H, v => by
    have iht := lookup_append_single t n H v
    by_cases hc : strcaseEq e.1 H = true
    · rw [List.cons_append, headersLookup_cons_pos e _ H hc,
        headersLookup_cons_pos e _ H hc]
    · have hcf : strcaseEq e.1 H = false := by simpa using hc
      rw [List.cons_append, headersLookup_cons_neg e _ H hcf,
        headersLookup_cons_neg e _ H hcf, iht]

/-- The effect of a `headersInsert` on a later lookup. -/
theorem headersLookup_insert (hm : List (List Nat × Int)) (n H : List Nat)
    (v : Int) :
    headersLookup (headersInsert hm n v) H =
      if strcaseEq n H then some v else headersLookup hm H := by
  unfold headersInsert
  by_cases hs : (hm.find? (fun e => strcaseEq e.1 n)).isSome = true
  · rw [if_pos hs]
    by_cases hnH : strcaseEq n H = true
    · rw [lookup_replace_rel hm n H v hnH, if_pos hs, if_pos hnH]
    · have hf : strcaseEq n H = false := by simpa using hnH
      rw [lookup_replace_unrel hm n H v hf, hf]
      simp
  · rw [if_neg hs]
    rw [lookup_append_single hm n H v]
    by_cases hnH : strcaseEq n H = true
    · have hnone : headersLookup hm H = none := by
        have he : headersLookup hm n = headersLookup hm H :=
          headersLookup_congr hm n H hnH
        have : (headersLookup hm n).isSome = false := by
          simpa [headersLookup, Option.isSome_map] using hs
        rw [he] at this
        exact Option.not_isSome_iff_eq_none.1 (by simp [this])
      rw [hnone]
    · have hf : strcaseEq n H = false := by simpa using hnH
      cases hx : headersLookup hm H
      · simp [hf]
      · simp [hf]

/-- Dispatching one well-formed HEADER frame increments the entry of the name in
the header-count map (`found ? num + 1 : 1`). -/
theorem milterApplyHeader_headers (ext : MilterExt) (cs : MilterConsts)
    (s : Session) (p : List Nat × List Nat) (hn : 0 ∉ p.1) :
    (milterApplyHeader ext cs s p).headers =
      headersInsert s.headers p.1
        ((headersLookup s.headers p.1).getD 0 + 1) := by
  obtain ⟨n, v⟩ := p
  simp only [milterApplyHeader]
  rw [show rspamd_milter_process_command ext cs s
      { fsm := .readData, datalen := (n, v).1.length + (n, v).2.length + 2,
        curCmd := CMD_HEADER, cmdStart := 0, pos := 0,
        buf := (n, v).1 ++ [0] ++ (n, v).2 ++ [0] } =
      milterHeaderCase s (n ++ [0] ++ v ++ [0]) 0 (n.length + v.length + 2)
      from rfl]
  have hmz : memchrZ (n ++ [0] ++ v ++ [0]) 0 (n.length + v.length + 2) =
      some n.length := by
    unfold memchrZ sliceL
    rw [List.drop_zero]
    have hlen : (n ++ [0] ++ v ++ [0]).length = n.length + v.length + 2 := by
      simp
      omega
    rw [← hlen, List.take_length,
      show n ++ [0] ++ v ++ [0] = n ++ 0 :: (v ++ [0]) by simp,
      memchrOff_append_zero n _ hn]
    simp
  have hget : (n ++ [0] ++ v ++ [0]).getD
      (0 + (n.length + v.length + 2) - 1) 0 = 0 := by
    rw [show n ++ [0] ++ v ++ [0] = (n ++ 0 :: v) ++ 0 :: [] by simp,
      show 0 + (n.length + v.length + 2) - 1 = (n ++ 0 :: v).length by
        simp; omega]
    exact getD_append_len _ _ _ _
  have hcond : 0 + (n.length + v.length + 2) > n.length ∧
      ((n ++ [0] ++ v ++ [0]).getD (0 + (n.length + v.length + 2) - 1) 0
        == 0) = true := by
    constructor
    · omega
    · rw [hget]
      rfl
  unfold milterHeaderCase
  rw [hmz]
  dsimp only
  rw [if_pos hcond]
  have hname : sliceL (n ++ [0] ++ v ++ [0]) 0 (n.length - 0) = n := by
    unfold sliceL
    rw [List.drop_zero, Nat.sub_zero,
      show n ++ [0] ++ v ++ [0] = n ++ ([0] ++ v ++ [0]) by simp,
      take_len_append]
  rw [hname]
  cases hx : headersLookup s.headers n <;> simp [hx]

/-- Folding HEADER dispatches over a list of (name, value) pairs adds the
case-class count of each looked-up name. -/
theorem fold_applyHeader_lookup (ext : MilterExt) (cs : MilterConsts) :
    ∀ (pairs : List (List Nat × List Nat)) (s : Session)
      (_ : ∀ p ∈ pairs, 0 ∉ p.1) (H : List Nat),
      headersLookup (pairs.foldl (milterApplyHeader ext cs) s).headers H =
        if headerSeenCount pairs H = 0 then headersLookup s.headers H
        else some ((headersLookup s.headers H).getD 0 +
          (headerSeenCount pairs H : Int))
  | [], s, _, H => by simp [headerSeenCount]
  | p :: rest, s, hfree, H => by
    have hp : 0 ∉ p.1 := hfree p (by simp)
    have hrest : ∀ q ∈ rest, 0 ∉ q.1 := fun q hq => hfree q (by simp [hq])
    rw [List.foldl_cons]
    rw [fold_applyHeader_lookup ext cs rest (milterApplyHeader ext cs s p)
      hrest H]
    have hstep := milterApplyHeader_headers ext cs s p hp
    by_cases hcls : strcaseEq p.1 H = true
    · have hlk : headersLookup (milterApplyHeader ext cs s p).headers H =
          some ((headersLookup s.headers H).getD 0 + 1) := by
        rw [hstep, headersLookup_insert, if_pos hcls,
          headersLookup_congr s.headers p.1 H hcls]
      have hcnt : headerSeenCount (p :: rest) H =
          headerSeenCount rest H + 1 := by
        simp [headerSeenCount, List.countP_cons, hcls]
      rw [hlk, hcnt]
      by_cases hz : headerSeenCount rest H = 0
      · simp [hz]
      · rw [if_neg hz, if_neg (by omega)]
        simp only [Option.getD_some]
        congr 1
        push_cast
        ring
    · have hcf : strcaseEq p.1 H = false := by simpa using hcls
      have hlk : headersLookup (milterApplyHeader ext cs s p).headers H =
          headersLookup s.headers H := by
        rw [hstep, headersLookup_insert, if_neg (by simp [hcf])]
      have hcnt : headerSeenCount (p :: rest) H = headerSeenCount rest H := by
        simp [headerSeenCount, List.countP_cons, hcf]
      rw [hlk, hcnt]

/-- The `send_action` appends exactly one frame. -/
theorem sendAction_outChain (s : Session) (a : OutAction) :
    (rspamd_milter_send_action s a).1.outChain =
      s.outChain ++ [encodeReply a] := rfl

/-- The out chain of the position-0 removal loop. -/
theorem outChain_fold_range (H : List Nat) :
    ∀ (k : Nat) (s : Session),
      ((List.range k).foldl
        (fun acc i =>
          (rspamd_milter_send_action acc (.chgHeader (i + 1) H [])).1)
        s).outChain =
      s.outChain ++
        (List.range k).map (fun i => encodeReply (.chgHeader (i + 1) H []))
  | 0, s => by simp
  | k + 1, s => by
    rw [List.range_succ, List.foldl_append, List.map_append]
    simp only [List.foldl_cons, List.foldl_nil, List.map_cons, List.map_nil]
    rw [sendAction_outChain, outChain_fold_range H k s, List.append_assoc]

/-! ## Claim theorems -/

/-- Claim C7: after processing an ABORT command the envelope fields
(`from`, `rcpts`, `helo`, `hostname`, `message`) and the header-count map
are empty, while the connection address and the macro map keep exactly the
values they had before the ABORT. -/
theorem milter_c7_abort_reset (ext : MilterExt) (cs : MilterConsts)
    (s : Session) (buf : List Nat) (cmdStart dlen pos : Nat) :
    (rspamd_milter_process_command ext cs s
      { fsm := .readData, datalen := dlen, curCmd := CMD_ABORT,
        cmdStart := cmdStart, pos := pos, buf := buf }).1.fromA = none ∧
    (rspamd_milter_process_command ext cs s
      { fsm := .readData, datalen := dlen, curCmd := CMD_ABORT,
        cmdStart := cmdStart, pos := pos, buf := buf }).1.rcpts = none ∧
    (rspamd_milter_process_command ext cs s
      { fsm := .readData, datalen := dlen, curCmd := CMD_ABORT,
        cmdStart := cmdStart, pos := pos, buf := buf }).1.headers = [] ∧
    fstrEmpty (rspamd_milter_process_command ext cs s
      { fsm := .readData, datalen := dlen, curCmd := CMD_ABORT,
        cmdStart := cmdStart, pos := pos, buf := buf }).1.helo ∧
    fstrEmpty (rspamd_milter_process_command ext cs s
      { fsm := .readData, datalen := dlen, curCmd := CMD_ABORT,
        cmdStart := cmdStart, pos := pos, buf := buf }).1.hostname ∧
    fstrEmpty (rspamd_milter_process_command ext cs s
      { fsm := .readData, datalen := dlen, curCmd := CMD_ABORT,
        cmdStart := cmdStart, pos := pos, buf := buf }).1.message ∧
    (rspamd_milter_process_command ext cs s
      { fsm := .readData, datalen := dlen, curCmd := CMD_ABORT,
        cmdStart := cmdStart, pos := pos, buf := buf }).1.addr = s.addr ∧
    (rspamd_milter_process_command ext cs s
      { fsm := .readData, datalen := dlen, curCmd := CMD_ABORT,
        cmdStart := cmdStart, pos := pos, buf := buf }).1.macros = s.macros
    := by
  have h : (rspamd_milter_process_command ext cs s
      { fsm := .readData, datalen := dlen, curCmd := CMD_ABORT,
        cmdStart := cmdStart, pos := pos, buf := buf }).1 =
      rspamd_milter_session_reset s RESET_ABORT := rfl
  rw [h]
  unfold rspamd_milter_session_reset RESET_ABORT
  refine ⟨rfl, rfl, rfl, ?_, ?_, ?_, rfl, rfl⟩
  · cases hx : s.helo <;> simp [fstrEmpty, hx]
  · cases hx : s.hostname <;> simp [fstrEmpty, hx]
  · cases hx : s.message <;> simp [fstrEmpty, hx]

/-- Claim C10: a removal request for a header name with no entry in the
header-count map enqueues nothing and leaves the session unchanged, for
every requested position. -/
theorem milter_c10_absent_header_noop (s : Session) (key : List Nat)
    (p : Int) (h : headersLookup s.headers key = none) :
    rspamd_milter_remove_header_safe s key p = s := by
  unfold rspamd_milter_remove_header_safe
  rw [h]

/-- Witness for C10 at a concrete session and position. -/
theorem milter_c10_witness :
    headersLookup (initSession false).headers [65] = none ∧
    rspamd_milter_remove_header_safe (initSession false) [65] 0 =
      initSession false :=
  ⟨rfl, milter_c10_absent_header_noop (initSession false) [65] 0 rfl⟩

/-- Counterexample to claim C1: a HELO (an envelope-mutating command)
processed on a fresh session — no OPTNEG has been received — is accepted:
the session does not enter `WANNA_DIE`, the host error callback is not
invoked, and the command returns TRUE, contradicting the claimed
pre-OPTNEG fatal protocol error. -/
theorem milter_c1_counterexample :
    (rspamd_milter_process_command trivExt witConsts (initSession false)
      { fsm := .readData, datalen := 3, curCmd := CMD_HELO, cmdStart := 0,
        pos := 0, buf := [104, 105, 0] }).1.state ≠ ConnState.wannaDie ∧
    (rspamd_milter_process_command trivExt witConsts (initSession false)
      { fsm := .readData, datalen := 3, curCmd := CMD_HELO, cmdStart := 0,
        pos := 0, buf := [104, 105, 0] }).1.errCbInvoked = false ∧
    (rspamd_milter_process_command trivExt witConsts (initSession false)
      { fsm := .readData, datalen := 3, curCmd := CMD_HELO, cmdStart := 0,
        pos := 0, buf := [104, 105, 0] }).2 = true := by
  decide

/-- Claim C1 as amended: the dispatcher enforces no ordering between OPTNEG
and the other commands.  A well-formed envelope-mutating command (here
HELO, with a NUL-terminated non-empty payload) is processed identically
whether or not OPTNEG ever happened — on an arbitrary session it mutates
the envelope, keeps the connection state, and invokes no error callback. -/
theorem milter_c1_preoptneg_envelope_accepted (ext : MilterExt)
    (cs : MilterConsts) (s : Session) (buf : List Nat)
    (cmdStart pos dlen : Nat) (hlen : 0 < dlen)
    (hterm : buf.getD (cmdStart + dlen - 1) 0 = 0) :
    (rspamd_milter_process_command ext cs s
      { fsm := .readData, datalen := dlen, curCmd := CMD_HELO,
        cmdStart := cmdStart, pos := pos, buf := buf }).1 =
      { s with helo := some (sliceL buf cmdStart (dlen - 1)) } ∧
    (rspamd_milter_process_command ext cs s
      { fsm := .readData, datalen := dlen, curCmd := CMD_HELO,
        cmdStart := cmdStart, pos := pos, buf := buf }).2 = true := by
  have h : rspamd_milter_process_command ext cs s
      { fsm := .readData, datalen := dlen, curCmd := CMD_HELO,
        cmdStart := cmdStart, pos := pos, buf := buf } =
      milterHeloCase s buf cmdStart dlen := rfl
  rw [h]
  unfold milterHeloCase
  rw [if_pos ⟨hlen, by rw [hterm]; rfl⟩]
  exact ⟨rfl, rfl⟩

/-- Witness for the amended C1 at a concrete pre-OPTNEG session. -/
theorem milter_c1_witness :
    (rspamd_milter_process_command trivExt witConsts (initSession false)
      { fsm := .readData, datalen := 3, curCmd := CMD_HELO, cmdStart := 0,
        pos := 0, buf := [104, 105, 0] }).1 =
      { initSession false with helo := some (sliceL [104, 105, 0] 0 2) } ∧
    (rspamd_milter_process_command trivExt witConsts (initSession false)
      { fsm := .readData, datalen := 3, curCmd := CMD_HELO, cmdStart := 0,
        pos := 0, buf := [104, 105, 0] }).2 = true :=
  milter_c1_preoptneg_envelope_accepted trivExt witConsts (initSession false)
    [104, 105, 0] 0 0 3 (by decide) (by decide)

/-- Claim C2 is violated by the code: the control flow of the CONNECT handler
reaches reads past the frame.  For the 2-byte payload `"a\0"` (hostname
"a", NUL last) the handler reads the family byte at offset 2, one past the
payload, instead of raising a protocol error; the dispatch also completes
without any protocol error being reported. -/
theorem milter_c2_connect_reads_past_frame :
    connectReadsPastFrame [97, 0] = true ∧
    (milterConnectCase trivExt (initSession false) [97, 0] 0 2).2 = true ∧
    (milterConnectCase trivExt (initSession false) [97, 0] 0 2).1.errCbInvoked
      = false := by
  decide

/-- Claim C3 is violated by the code: the two valid frames
`BODY "X"` and `ABORT` fed as one read dispatch `(BODY, "X"), (ABORT, [])`,
but fed split right after the 5-byte frame header of BODY they dispatch
`(BODY, "A"), (ABORT, [])` — the buffer-reset epilogue clears the buffer
while `parser.cmd_start` still points at the old offset 5, so the payload
is taken from the wrong place in the refilled buffer. -/
theorem milter_c3_fragmentation_changes_dispatch :
    (milterFeedMany trivExt witConsts (initSession false) initParser
      [[0, 0, 0, 2, 66, 88, 0, 0, 0, 1, 65]]).2.2 =
      [(66, [88]), (65, [])] ∧
    (milterFeedMany trivExt witConsts (initSession false) initParser
      [[0, 0, 0, 2, 66], [88, 0, 0, 0, 1, 65]]).2.2 =
      [(66, [65]), (65, [])] ∧
    (milterFeedMany trivExt witConsts (initSession false) initParser
      [[0, 0, 0, 2, 66, 88, 0, 0, 0, 1, 65]]).2.2 ≠
    (milterFeedMany trivExt witConsts (initSession false) initParser
      [[0, 0, 0, 2, 66], [88, 0, 0, 0, 1, 65]]).2.2 := by
  refine ⟨by decide, by decide, ?_⟩
  intro h
  rw [show (milterFeedMany trivExt witConsts (initSession false) initParser
      [[0, 0, 0, 2, 66, 88, 0, 0, 0, 1, 65]]).2.2 =
      [(66, [88]), (65, [])] from by decide,
    show (milterFeedMany trivExt witConsts (initSession false) initParser
      [[0, 0, 0, 2, 66], [88, 0, 0, 0, 1, 65]]).2.2 =
      [(66, [65]), (65, [])] from by decide] at h
  simp at h

/-- Claim C4: for a message whose headers were recorded through HEADER
commands, the header-count map maps every name `H` to the number `K` of
recordings whose name falls in the case-class of `H` (the key equality
of the map),
and is empty at names never recorded; given a looked-up count `K`, a
removal request at position `p` enqueues exactly one `CHGHEADER(p, H, "")`
when `p ≥ 1`, exactly the `K` frames `CHGHEADER(i, H, "")`, `i = 1..K`,
when `p = 0`, exactly one `CHGHEADER(K + p + 1, H, "")` when
`-K ≤ p < 0`, and no frame when `p < -K`. -/
theorem milter_c4_header_count_and_removal (ext : MilterExt)
    (cs : MilterConsts) :
    (∀ (pairs : List (List Nat × List Nat)) (s : Session) (H : List Nat),
      (∀ p ∈ pairs, 0 ∉ p.1) → s.headers = [] →
      headersLookup (pairs.foldl (milterApplyHeader ext cs) s).headers H =
        (if headerSeenCount pairs H = 0 then none
         else some (headerSeenCount pairs H : Int))) ∧
    (∀ (s : Session) (H : List Nat) (K p : Int),
      headersLookup s.headers H = some K → 1 ≤ K →
      ((1 ≤ p →
        (rspamd_milter_remove_header_safe s H p).outChain =
          s.outChain ++ [encodeReply (.chgHeader p.toNat H [])]) ∧
       (p = 0 →
        (rspamd_milter_remove_header_safe s H p).outChain =
          s.outChain ++ (List.range K.toNat).map
            (fun i => encodeReply (.chgHeader (i + 1) H []))) ∧
       (-K ≤ p ∧ p < 0 →
        (rspamd_milter_remove_header_safe s H p).outChain =
          s.outChain ++ [encodeReply (.chgHeader (K + p + 1).toNat H [])]) ∧
       (p < -K →
        (rspamd_milter_remove_header_safe s H p).outChain = s.outChain)))
    := by
  constructor
  · intro pairs s H hfree hempty
    rw [fold_applyHeader_lookup ext cs pairs s hfree H, hempty]
    by_cases hz : headerSeenCount pairs H = 0
    · simp [hz, headersLookup]
    · rw [if_neg hz, if_neg hz]
      simp [headersLookup]
  · intro s H K p hK hK1
    refine ⟨?_, ?_, ?_, ?_⟩
    · intro hp
      unfold rspamd_milter_remove_header_safe
      rw [hK]
      dsimp only
      rw [if_pos hp, sendAction_outChain]
    · intro hp
      subst hp
      unfold rspamd_milter_remove_header_safe
      rw [hK]
      dsimp only
      rw [if_neg (by omega)]
      rw [if_pos (by rfl)]
      exact outChain_fold_range H K.toNat s
    · intro hp
      obtain ⟨hp1, hp2⟩ := hp
      unfold rspamd_milter_remove_header_safe
      rw [hK]
      dsimp only
      rw [if_neg (by omega), if_neg (by simp; omega), if_pos (by omega),
        sendAction_outChain]
    · intro hp
      unfold rspamd_milter_remove_header_safe
      rw [hK]
      dsimp only
      rw [if_neg (by omega), if_neg (by simp; omega), if_neg (by omega)]

/-- Witness for C4: two case-variant recordings of "Sub" count as 2 under
lookup of "suB", and a removal at position −1 with count 3 enqueues one
`CHGHEADER(3, …)`. -/
theorem milter_c4_witness :
    (headersLookup
      ([(([83, 117, 98], [72]) : List Nat × List Nat),
        ([83, 85, 66], [73])].foldl (milterApplyHeader trivExt witConsts)
        (initSession false)).headers [115, 117, 66] =
      (if headerSeenCount [([83, 117, 98], [72]), ([83, 85, 66], [73])]
          [115, 117, 66] = 0 then none
       else some (headerSeenCount
          [([83, 117, 98], [72]), ([83, 85, 66], [73])] [115, 117, 66] :
          Int))) ∧
    ((rspamd_milter_remove_header_safe
        { initSession false with headers := [([83, 117, 98], 3)] }
        [83, 117, 98] (-1)).outChain =
      ({ initSession false with
          headers := [([83, 117, 98], 3)] } : Session).outChain ++
        [encodeReply (.chgHeader ((3 : Int) + (-1) + 1).toNat
          [83, 117, 98] [])]) :=
  ⟨(milter_c4_header_count_and_removal trivExt witConsts).1
      [([83, 117, 98], [72]), ([83, 85, 66], [73])] (initSession false)
      [115, 117, 66] (by decide) rfl,
   (((milter_c4_header_count_and_removal trivExt witConsts).2
      { initSession false with headers := [([83, 117, 98], 3)] }
      [83, 117, 98] 3 (-1) rfl (by decide)).2.2.1 ⟨by decide, by decide⟩)⟩

/-- Claim C5: an OPTNEG whose 12-byte payload decodes to the big-endian
words (version, actions, protocol): a version below the supported minimum
is a fatal protocol error with no reply enqueued; otherwise exactly one
OPTNEG reply frame carrying (supported version, `actions | ACTIONS_MASK`,
`NOREPLY_MASK`) is enqueued; a payload length other than 12 is a fatal
protocol error. -/
theorem milter_c5_optneg (ext : MilterExt) (cs : MilterConsts) (s : Session)
    (buf : List Nat) (cmdStart pos dlen : Nat) :
    ((dlen = 12 → read32 buf cmdStart < cs.protoVer →
      (rspamd_milter_process_command ext cs s
        { fsm := .readData, datalen := dlen, curCmd := CMD_OPTNEG,
          cmdStart := cmdStart, pos := pos, buf := buf }) =
      (onProtocolError s .optnegBadVersion, false)) ∧
     (dlen = 12 → cs.protoVer ≤ read32 buf cmdStart →
      (rspamd_milter_process_command ext cs s
        { fsm := .readData, datalen := dlen, curCmd := CMD_OPTNEG,
          cmdStart := cmdStart, pos := pos, buf := buf }).1.outChain =
        s.outChain ++ [encodeReply (.optneg cs.protoVer
          (read32 buf (cmdStart + 4) ||| cs.actionsMask) cs.noreplyMask)] ∧
      (rspamd_milter_process_command ext cs s
        { fsm := .readData, datalen := dlen, curCmd := CMD_OPTNEG,
          cmdStart := cmdStart, pos := pos, buf := buf }).2 = true) ∧
     (dlen ≠ 12 →
      (rspamd_milter_process_command ext cs s
        { fsm := .readData, datalen := dlen, curCmd := CMD_OPTNEG,
          cmdStart := cmdStart, pos := pos, buf := buf }) =
      (onProtocolError s .optnegBadLen, false))) := by
  have h : rspamd_milter_process_command ext cs s
      { fsm := .readData, datalen := dlen, curCmd := CMD_OPTNEG,
        cmdStart := cmdStart, pos := pos, buf := buf } =
      milterOptnegCase cs s buf cmdStart dlen := rfl
  refine ⟨?_, ?_, ?_⟩
  · intro h12 hver
    rw [h]
    unfold milterOptnegCase
    rw [if_neg (by simp [h12]), if_pos hver]
  · intro h12 hver
    rw [h]
    unfold milterOptnegCase
    rw [if_neg (by simp [h12]), if_neg (by omega)]
    exact ⟨sendAction_outChain s _, rfl⟩
  · intro h12
    rw [h]
    unfold milterOptnegCase
    rw [if_pos (by simp [h12])]

/-- Witness for C5: scenario S1, version 2 against minimum 2: one OPTNEG
reply frame. -/
theorem milter_c5_witness :
    witConsts.protoVer ≤
      read32 [0, 0, 0, 2, 0, 0, 0, 0, 0, 0, 0, 0] 0 ∧
    (rspamd_milter_process_command trivExt witConsts (initSession false)
      { fsm := .readData, datalen := 12, curCmd := CMD_OPTNEG,
        cmdStart := 0, pos := 0,
        buf := [0, 0, 0, 2, 0, 0, 0, 0, 0, 0, 0, 0] }).1.outChain =
      (initSession false).outChain ++
        [encodeReply (.optneg witConsts.protoVer
          (read32 [0, 0, 0, 2, 0, 0, 0, 0, 0, 0, 0, 0] 4 |||
            witConsts.actionsMask) witConsts.noreplyMask)] :=
  ⟨by decide,
   ((milter_c5_optneg trivExt witConsts (initSession false)
      [0, 0, 0, 2, 0, 0, 0, 0, 0, 0, 0, 0] 0 0 12).2.1 rfl (by decide)).1⟩

/-- Claim C9: every action of the reply builder becomes exactly one
contiguous frame `htonl (1 + payload_len) || cmd || payload` with the
section 4.5 payload layout, and decoding that frame with the section 4.1
codec recovers `(cmd, payload)` bit-identically with no residue. -/
theorem milter_c9_reply_roundtrip (a : OutAction)
    (h : (actionPayload a).length + 1 < 2 ^ 32) :
    encodeReply a =
      be32enc ((actionPayload a).length + 1) ++ [actionCmd a] ++
        actionPayload a ∧
    decodeFrame (encodeReply a) =
      some (actionCmd a, actionPayload a, []) := by
  have hm : ((actionPayload a).length + 1) % 2 ^ 32 =
      (actionPayload a).length + 1 := Nat.mod_eq_of_lt h
  constructor
  · unfold encodeReply SET_COMMAND
    rw [hm]
  · unfold encodeReply SET_COMMAND be32enc
    rw [hm]
    simp only [List.cons_append, List.nil_append]
    unfold decodeFrame
    dsimp only
    have hacc := lenAccum_be32enc ((actionPayload a).length + 1) h
    unfold lenAccum at hacc
    rw [hacc]
    rw [if_pos ⟨by omega, by simp⟩]
    simp

/-- Witness for C9 at a concrete REPLYCODE action. -/
theorem milter_c9_witness :
    (actionPayload (.replyCode [65])).length + 1 < 2 ^ 32 ∧
    (encodeReply (.replyCode [65]) =
      be32enc ((actionPayload (.replyCode [65])).length + 1) ++
        [actionCmd (.replyCode [65])] ++ actionPayload (.replyCode [65]) ∧
    decodeFrame (encodeReply (.replyCode [65])) =
      some (actionCmd (.replyCode [65]), actionPayload (.replyCode [65]),
        [])) :=
  ⟨by decide, milter_c9_reply_roundtrip (.replyCode [65]) (by decide)⟩

/-- Claim C6: a "reject" verdict on a session whose `no_action` flag is
clear (at decision time, i.e. after the milter block ran) and whose milter
block did not handle the spam header itself enqueues, after the
milter-block/DKIM stages: exactly one DISCARD when `discard_on_reject` is
set, else one REPLYCODE carrying `"554 5.7.1 <text>"` (text =
`messages.smtp_message` when present, else the default reject message)
followed by one REJECT. -/
theorem milter_c6_reject_verdict (cs : MilterConsts) (s : Session)
    (r : Verdict) (ha : r.action = some ACTION_REJECT_STR)
    (hm : (milterVerdictStage cs s r .reject).2 = false)
    (hna : (dkimVerdictStage (milterVerdictStage cs s r .reject).1 r).noAction
      = false) :
    (rspamd_milter_send_task_results cs s (some r)).outChain =
      (dkimVerdictStage (milterVerdictStage cs s r .reject).1 r).outChain ++
        (if (dkimVerdictStage (milterVerdictStage cs s r .reject).1
            r).discardOnReject then
          [encodeReply .discard]
         else
          [encodeReply (.replyCode (RCODE_REJECT ++ [32] ++ XCODE_REJECT ++
            [32] ++ (r.smtpMessage.getD cs.rejectMessage))),
           encodeReply .reject]) := by
  unfold rspamd_milter_send_task_results
  dsimp only
  rw [ha]
  dsimp only
  rw [show rspamd_action_from_str ACTION_REJECT_STR .reject = .reject
    from rfl]
  simp only [hm, hna, Bool.false_eq_true, if_false]
  cases hd : (dkimVerdictStage (milterVerdictStage cs s r .reject).1
      r).discardOnReject
  · rw [if_neg (Bool.noConfusion : ¬ (false = true)),
      if_neg (Bool.noConfusion : ¬ (false = true))]
    unfold rspamd_milter_set_reply
    rw [sendAction_outChain, sendAction_outChain, List.append_assoc]
    rfl
  · rw [if_pos (rfl : (true : Bool) = true),
      if_pos (rfl : (true : Bool) = true), sendAction_outChain]

/-- Witness for C6 at the verdict of scenario S2 (`smtp_message` "no"),
`discard_on_reject` clear. -/
theorem milter_c6_witness :
    (rspamd_milter_send_task_results witConsts (initSession false)
      (some { action := some ACTION_REJECT_STR,
              smtpMessage := some [110, 111], milterBlock := none,
              dkimSignature := none, subject := none })).outChain =
      (dkimVerdictStage (milterVerdictStage witConsts (initSession false)
        { action := some ACTION_REJECT_STR, smtpMessage := some [110, 111],
          milterBlock := none, dkimSignature := none,
          subject := none } .reject).1
        { action := some ACTION_REJECT_STR, smtpMessage := some [110, 111],
          milterBlock := none, dkimSignature := none,
          subject := none }).outChain ++
      (if (dkimVerdictStage (milterVerdictStage witConsts
            (initSession false)
            { action := some ACTION_REJECT_STR,
              smtpMessage := some [110, 111], milterBlock := none,
              dkimSignature := none, subject := none } .reject).1
            { action := some ACTION_REJECT_STR,
              smtpMessage := some [110, 111], milterBlock := none,
              dkimSignature := none, subject := none }).discardOnReject then
        [encodeReply .discard]
       else
        [encodeReply (.replyCode (RCODE_REJECT ++ [32] ++ XCODE_REJECT ++
          [32] ++ ((some [110, 111] : Option (List Nat)).getD
            witConsts.rejectMessage))),
         encodeReply .reject]) :=
  milter_c6_reject_verdict witConsts (initSession false)
    { action := some ACTION_REJECT_STR, smtpMessage := some [110, 111],
      milterBlock := none, dkimSignature := none, subject := none }
    rfl rfl rfl

/-- One `st_read_data` loop iteration with an oversized remaining length is
a fatal protocol error. -/
theorem consumeLoop_step_tooBig (ext : MilterExt) (cs : MilterConsts)
    (f : Nat) (s : Session) (d cc cst pp p : Nat) (buf : List Nat)
    (evs : List (Nat × List Nat)) (hp : p < buf.length)
    (hbig : d > cs.chunkMax * 2) :
    consumeLoop ext cs (f + 1) s ⟨.readData, d, cc, cst, pp, buf⟩ p evs =
      ⟨onProtocolError s .cmdTooBig, ⟨.readData, d, cc, cst, pp, buf⟩, evs,
       false⟩ := by
  simp only [consumeLoop]
  rw [if_pos hp, if_pos hbig]

/-- One `st_read_data` loop iteration with an unknown command byte (and an
in-range length) is a fatal protocol error. -/
theorem consumeLoop_step_invalid (ext : MilterExt) (cs : MilterConsts)
    (f : Nat) (s : Session) (d cc cst pp p : Nat) (buf : List Nat)
    (evs : List (Nat × List Nat)) (hp : p < buf.length)
    (hsmall : ¬ (d > cs.chunkMax * 2))
    (hval : rspamd_milter_is_valid_cmd cc = false) :
    consumeLoop ext cs (f + 1) s ⟨.readData, d, cc, cst, pp, buf⟩ p evs =
      ⟨onProtocolError s .cmdInvalid, ⟨.readData, d, cc, cst, pp, buf⟩, evs,
       false⟩ := by
  simp only [consumeLoop]
  rw [if_pos hp, if_neg hsmall, if_pos (by simp [hval])]

/-- One `st_len_4` iteration: or in the last length byte, move to
`st_read_cmd`. -/
theorem consumeLoop_step_len4 (ext : MilterExt) (cs : MilterConsts)
    (f : Nat) (s : Session) (d cc cst pp p : Nat) (buf : List Nat)
    (evs : List (Nat × List Nat)) (hp : p < buf.length) :
    consumeLoop ext cs (f + 1) s ⟨.len4, d, cc, cst, pp, buf⟩ p evs =
      consumeLoop ext cs f s ⟨.readCmd, d ||| buf.getD p 0, cc, cst, pp, buf⟩
        (p + 1) evs := by
  simp only [consumeLoop]
  rw [if_pos hp]

/-- The first five parser iterations over a frame header: accumulate the
four length bytes, consume the command byte (with a non-zero length), and
land in `st_read_data` with `cmd_start = 5`. -/
theorem consumeLoop_header (ext : MilterExt) (cs : MilterConsts)
    (s : Session) (f : Nat) (l0 l1 l2 l3 c : Nat) (rest : List Nat)
    (h1 : 1 ≤ lenAccum l0 l1 l2 l3) :
    consumeLoop ext cs (f + 5) s
      ⟨.len1, 0, 0, 0, 0, l0 :: l1 :: l2 :: l3 :: c :: rest⟩ 0 [] =
    consumeLoop ext cs f s
      ⟨.readData, lenAccum l0 l1 l2 l3 - 1, c, 5, 0,
        l0 :: l1 :: l2 :: l3 :: c :: rest⟩ 5 [] := by
  have e4 : consumeLoop ext cs (f + 1 + 4) s
      ⟨.len1, 0, 0, 0, 0, l0 :: l1 :: l2 :: l3 :: c :: rest⟩ 0 [] =
      consumeLoop ext cs (f + 1) s
      ⟨.readCmd, lenAccum l0 l1 l2 l3, 0, 0, 0,
        l0 :: l1 :: l2 :: l3 :: c :: rest⟩ 4 [] := rfl
  rw [show f + 5 = f + 1 + 4 from rfl, e4]
  simp only [consumeLoop]
  rw [if_pos (show (4 : Nat) < (l0 :: l1 :: l2 :: l3 :: c :: rest).length
      by simp),
    if_neg (show ¬ lenAccum l0 l1 l2 l3 < 1 by omega)]
  rfl

/-- Counterexample to claim C8: the complete frame `len = 1`, command byte
0x5A (letter Z, not in the section 6.1 set), ending the buffered input, is NOT
a fatal protocol error: the unknown command is dispatched (and ignored),
no error callback fires, and the parser happily returns TRUE. -/
theorem milter_c8_counterexample :
    rspamd_milter_is_valid_cmd 90 = false ∧
    (rspamd_milter_consume_input trivExt witConsts (initSession false)
      { initParser with buf := [0, 0, 0, 1, 90] }).events = [(90, [])] ∧
    (rspamd_milter_consume_input trivExt witConsts (initSession false)
      { initParser with buf := [0, 0, 0, 1, 90] }).ret = true ∧
    (rspamd_milter_consume_input trivExt witConsts (initSession false)
      { initParser with buf := [0, 0, 0, 1, 90] }).s.errCbInvoked = false ∧
    (rspamd_milter_consume_input trivExt witConsts (initSession false)
      { initParser with buf := [0, 0, 0, 1, 90] }).s.state =
      ConnState.readMore := by
  decide

/-- Claim C8 as amended: during framing, a zero length field is fatal
(`WANNA_DIE`, error callback, nothing dispatched); an oversized declared
length is fatal as soon as a payload byte is in the buffer; an unknown
command byte is fatal when a payload byte follows in the buffer — but an
unknown command whose frame has an empty payload and ends the buffered
input is dispatched to the command dispatcher (which ignores it) with no
error (see the counterexample). -/
theorem milter_c8_framing_errors (ext : MilterExt) (cs : MilterConsts) :
    (∀ (s : Session) (c : Nat),
      rspamd_milter_consume_input ext cs s
        ⟨.len1, 0, 0, 0, 0, [0, 0, 0, 0, c]⟩ =
      ⟨onProtocolError s .cmdTooShort,
       ⟨.readData, 0, c, 0, 0, [0, 0, 0, 0, c]⟩, [], false⟩) ∧
    (∀ (s : Session) (l0 l1 l2 l3 c b : Nat) (rest : List Nat),
      1 ≤ lenAccum l0 l1 l2 l3 →
      cs.chunkMax * 2 < lenAccum l0 l1 l2 l3 - 1 →
      rspamd_milter_consume_input ext cs s
        ⟨.len1, 0, 0, 0, 0, l0 :: l1 :: l2 :: l3 :: c :: b :: rest⟩ =
      ⟨onProtocolError s .cmdTooBig,
       ⟨.readData, lenAccum l0 l1 l2 l3 - 1, c, 5, 0,
         l0 :: l1 :: l2 :: l3 :: c :: b :: rest⟩, [], false⟩) ∧
    (∀ (s : Session) (l0 l1 l2 l3 c b : Nat) (rest : List Nat),
      1 ≤ lenAccum l0 l1 l2 l3 →
      lenAccum l0 l1 l2 l3 - 1 ≤ cs.chunkMax * 2 →
      rspamd_milter_is_valid_cmd c = false →
      rspamd_milter_consume_input ext cs s
        ⟨.len1, 0, 0, 0, 0, l0 :: l1 :: l2 :: l3 :: c :: b :: rest⟩ =
      ⟨onProtocolError s .cmdInvalid,
       ⟨.readData, lenAccum l0 l1 l2 l3 - 1, c, 5, 0,
         l0 :: l1 :: l2 :: l3 :: c :: b :: rest⟩, [], false⟩) := by
  refine ⟨?_, ?_, ?_⟩
  · intro s c
    have e1 : rspamd_milter_consume_input ext cs s
        ⟨.len1, 0, 0, 0, 0, [0, 0, 0, 0, c]⟩ =
        consumeLoop ext cs 12 s
        ⟨.len3, (0 ||| (0 <<< 24)) ||| (0 <<< 16), 0, 0, 0,
          [0, 0, 0, 0, c]⟩ 2 [] := rfl
    have e2 : consumeLoop ext cs 12 s
        ⟨.len3, (0 ||| (0 <<< 24)) ||| (0 <<< 16), 0, 0, 0,
          [0, 0, 0, 0, c]⟩ 2 [] =
        consumeLoop ext cs 11 s
        ⟨.len4, ((0 ||| (0 <<< 24)) ||| (0 <<< 16)) ||| (0 <<< 8),
          0, 0, 0, [0, 0, 0, 0, c]⟩ 3 [] := rfl
    rw [e1, e2]
    simp only [consumeLoop]
    norm_num
  · intro s l0 l1 l2 l3 c b rest h1 h2
    have e0 : rspamd_milter_consume_input ext cs s
        ⟨.len1, 0, 0, 0, 0, l0 :: l1 :: l2 :: l3 :: c :: b :: rest⟩ =
        consumeLoop ext cs
          (2 * (l0 :: l1 :: l2 :: l3 :: c :: b :: rest).length + 4) s
          ⟨.len1, 0, 0, 0, 0, l0 :: l1 :: l2 :: l3 :: c :: b :: rest⟩ 0 []
        := rfl
    rw [e0, show 2 * (l0 :: l1 :: l2 :: l3 :: c :: b :: rest).length + 4 =
        (2 * rest.length + 11) + 5 by simp; omega]
    rw [consumeLoop_header ext cs s (2 * rest.length + 11) l0 l1 l2 l3 c
      (b :: rest) h1]
    rw [show 2 * rest.length + 11 = (2 * rest.length + 10) + 1 from rfl]
    exact consumeLoop_step_tooBig ext cs (2 * rest.length + 10) s
      (lenAccum l0 l1 l2 l3 - 1) c 5 0 5
      (l0 :: l1 :: l2 :: l3 :: c :: b :: rest) []
      (by simp) (by omega)
  · intro s l0 l1 l2 l3 c b rest h1 h2 hval
    have e0 : rspamd_milter_consume_input ext cs s
        ⟨.len1, 0, 0, 0, 0, l0 :: l1 :: l2 :: l3 :: c :: b :: rest⟩ =
        consumeLoop ext cs
          (2 * (l0 :: l1 :: l2 :: l3 :: c :: b :: rest).length + 4) s
          ⟨.len1, 0, 0, 0, 0, l0 :: l1 :: l2 :: l3 :: c :: b :: rest⟩ 0 []
        := rfl
    rw [e0, show 2 * (l0 :: l1 :: l2 :: l3 :: c :: b :: rest).length + 4 =
        (2 * rest.length + 11) + 5 by simp; omega]
    rw [consumeLoop_header ext cs s (2 * rest.length + 11) l0 l1 l2 l3 c
      (b :: rest) h1]
    rw [show 2 * rest.length + 11 = (2 * rest.length + 10) + 1 from rfl]
    exact consumeLoop_step_invalid ext cs (2 * rest.length + 10) s
      (lenAccum l0 l1 l2 l3 - 1) c 5 0 5
      (l0 :: l1 :: l2 :: l3 :: c :: b :: rest) []
      (by simp) (by omega) hval

/-- Witness for the amended C8: an oversized frame (declared length
0x02000202, far beyond 2 × 65536) is rejected with `E2BIG`. -/
theorem milter_c8_witness :
    1 ≤ lenAccum 0 2 0 2 ∧
    witConsts.chunkMax * 2 < lenAccum 0 2 0 2 - 1 ∧
    rspamd_milter_consume_input trivExt witConsts (initSession false)
      ⟨.len1, 0, 0, 0, 0, [0, 2, 0, 2, 66, 0]⟩ =
    ⟨onProtocolError (initSession false) .cmdTooBig,
     ⟨.readData, lenAccum 0 2 0 2 - 1, 66, 5, 0, [0, 2, 0, 2, 66, 0]⟩,
     [], false⟩ :=
  ⟨by decide, by decide,
   (milter_c8_framing_errors trivExt witConsts).2.1 (initSession false)
     0 2 0 2 66 0 [] (by decide) (by decide)⟩

end MilterCore
